import Mathlib

/-!
Verification development for the multiplayer snake server
(snake_server.py).  The Python classes Snake, Food, Player, BotAI and
MultiPlayerGame are shallowly embedded as Lean structures and pure
functions.  Randomness (random.randint / random.random draws) is made
explicit: every function that draws random values receives a stream of
draws as a parameter.  Wall-clock time (time.time()) is passed in
explicitly; times and durations are modelled in integer milliseconds
(the Python code carries seconds as floats: 0.15 s becomes 150, 5.0 s
becomes 5000).
-/

namespace SnakeGame

/-- A grid coordinate; the head of a snake may leave the board, so
coordinates are integers. -/
abbrev Pos := Int × Int

/-- CELL_NUMBER_X = 40 (800 // 20). -/
def CELL_NUMBER_X : Int := 40

/-- CELL_NUMBER_Y = 30 (600 // 20). -/
def CELL_NUMBER_Y : Int := 30

/-- Wall-clock instants and durations, in milliseconds. -/
abbrev Time := Int

/-- UPDATE_INTERVAL = 0.15 seconds, i.e. 150 ms. -/
def UPDATE_INTERVAL : Time := 150

/-- The bounds test used throughout the server:
0 <= x < CELL_NUMBER_X and 0 <= y < CELL_NUMBER_Y. -/
def in_bounds (p : Pos) : Prop :=
  0 ≤ p.1 ∧ p.1 < CELL_NUMBER_X ∧ 0 ≤ p.2 ∧ p.2 < CELL_NUMBER_Y

instance (p : Pos) : Decidable (in_bounds p) := by
  unfold in_bounds; infer_instance

/-- The three collision reasons the server reports. -/
inductive CollisionReason where
  | wall
  | self
  | other_player
deriving DecidableEq, Repr

/-- The four direction keywords of the protocol. -/
inductive Dir where
  | UP
  | DOWN
  | LEFT
  | RIGHT
deriving DecidableEq, Repr

/-- The dir_map dictionary used by the bot code. -/
def dirVec : Dir → Pos
  | Dir.UP => (0, -1)
  | Dir.DOWN => (0, 1)
  | Dir.LEFT => (-1, 0)
  | Dir.RIGHT => (1, 0)

/-- Vector addition of a cell and a direction vector. -/
def stepPos (p v : Pos) : Pos := (p.1 + v.1, p.2 + v.2)

/-- The Snake class: body (head first), direction vector, pending growth
flag. -/
structure Snake where
  body : List Pos
  direction : Pos
  new_block : Bool
deriving DecidableEq, Repr

/-- Snake.__init__: three horizontal cells, head first, moving right. -/
def Snake.init (start_pos : Pos) : Snake :=
  { body := [start_pos, (start_pos.1 - 1, start_pos.2), (start_pos.1 - 2, start_pos.2)]
    direction := (1, 0)
    new_block := false }

/-- Snake.move_snake: prepend head + direction; when new_block is set,
keep the tail and clear the flag, otherwise drop the last cell. -/
def Snake.move_snake (s : Snake) : Snake :=
  let head := s.body.headD (0, 0)
  let new_head := stepPos head s.direction
  if s.new_block then
    { s with body := new_head :: s.body, new_block := false }
  else
    { s with body := new_head :: s.body.dropLast }

/-- Snake.add_block: set the pending growth flag. -/
def Snake.add_block (s : Snake) : Snake :=
  { s with new_block := true }

/-- Snake.check_collision: the caller passes the bodies of all OTHER
snakes (the Python code filters the snake itself out by object
identity).  Priority: wall, then self, then other_player. -/
def Snake.check_collision (s : Snake) (others : List (List Pos)) :
    Option CollisionReason :=
  let head := s.body.headD (0, 0)
  if ¬ in_bounds head then some CollisionReason.wall
  else if head ∈ s.body.tail then some CollisionReason.self
  else if ∃ b ∈ others, head ∈ b then some CollisionReason.other_player
  else none

/-- Snake.get_size. -/
def Snake.get_size (s : Snake) : Nat := s.body.length

/-- The Food class: a single position, initially (10, 10). -/
structure Food where
  position : Pos
deriving DecidableEq, Repr

/-- Food.__init__. -/
def Food.mkInit : Food := { position := (10, 10) }

/-- Food.randomize with the stream of random cells made explicit:
rng n is the n-th pair drawn by random.randint.  The first of the first
1000 draws that avoids the occupied cells is taken; if all 1000 draws
hit occupied cells, draw 1000 is used unchecked (fallback). -/
def Food.randomize (f : Food) (occupied : List Pos) (rng : Nat → Pos) : Food :=
  match (List.range 1000).find? (fun n => decide (rng n ∉ occupied)) with
  | some n => { f with position := rng n }
  | none => { f with position := rng 1000 }

/-- The Player class.  bot_level is None for humans. -/
structure Player where
  player_id : Nat
  color : Nat × Nat × Nat
  letter : Char
  snake : Snake
  score : Nat
  game_over : Bool
  game_over_reason : Option CollisionReason
  game_timer : Time
  food_timer : Time
  is_bot : Bool
  bot_level : Option Nat
deriving DecidableEq, Repr

/-- Player.__init__ (start_pos is always supplied by the game). -/
def Player.mk' (player_id : Nat) (color : Nat × Nat × Nat) (letter : Char)
    (start_pos : Pos) (is_bot : Bool) : Player :=
  { player_id := player_id, color := color, letter := letter
    snake := Snake.init start_pos, score := 0
    game_over := false, game_over_reason := none
    game_timer := 0, food_timer := 0
    is_bot := is_bot, bot_level := none }

/-- Player.reset: fresh snake, score and timers; identity, color,
letter and bot-ness unchanged. -/
def Player.reset (p : Player) (start_pos : Pos) : Player :=
  { p with snake := Snake.init start_pos, score := 0
           game_over := false, game_over_reason := none
           game_timer := 0, food_timer := 0 }

/-! ### Bot decision procedure (class BotAI)

The BotAI methods are pure except for three random draws:
random.random() > random_chance (modelled by the Boolean useGoal),
and the 0.7-threshold draw inside _random_safe_direction (modelled by
the Boolean pickBest).  Each function receives the bodies of the other
living snakes (the Python code filters the deciding snake out by
object identity) and reads the deciding snake directly. -/

/-- Manhattan distance, as used for nearest-food selection. -/
def manhattan (a b : Pos) : Int := (a.1 - b.1).natAbs + (a.2 - b.2).natAbs

/-- The lookahead walk of BotAI._calculate_space_ahead: from pos, step
repeatedly by vec; stop at the first out-of-bounds or colliding cell;
count the free steps.  fuel is the remaining look_ahead budget. -/
def spaceWalk (check_body : List Pos) (others : List (List Pos))
    (vec : Pos) : Pos → Nat → Nat
  | _, 0 => 0
  | pos, fuel + 1 =>
    let next_pos := stepPos pos vec
    if ¬ in_bounds next_pos then 0
    else if next_pos ∈ check_body ∨ ∃ b ∈ others, next_pos ∈ b then 0
    else 1 + spaceWalk check_body others vec next_pos fuel

/-- BotAI._calculate_space_ahead (look_ahead = 3).  The self-collision
test uses body[1:-1] when the body has more than 2 cells, else
body[1:]. -/
def calculateSpaceAhead (snake : Snake) (d : Dir)
    (others : List (List Pos)) : Nat :=
  let check_body :=
    if snake.body.length > 2 then snake.body.tail.dropLast else snake.body.tail
  spaceWalk check_body others (dirVec d) (snake.body.headD (0, 0)) 3

/-- The immediate-safety filter shared by the random and goal-seeking
procedures: new head in bounds, not on the own body minus head, and not
on any other snake. -/
def dirSafe (snake : Snake) (others : List (List Pos)) (d : Dir) : Prop :=
  let new_head := stepPos (snake.body.headD (0, 0)) (dirVec d)
  in_bounds new_head ∧ new_head ∉ snake.body.tail ∧ ¬ ∃ b ∈ others, new_head ∈ b

instance (snake : Snake) (others : List (List Pos)) (d : Dir) :
    Decidable (dirSafe snake others d) := by
  unfold dirSafe; infer_instance

/-- reverse_map of _random_safe_direction: the name of the direction
opposite to the current direction vector. -/
def reverseName (v : Pos) : Option Dir :=
  if v = ((0 : Int), (-1 : Int)) then some Dir.DOWN
  else if v = ((0 : Int), (1 : Int)) then some Dir.UP
  else if v = ((-1 : Int), (0 : Int)) then some Dir.RIGHT
  else if v = ((1 : Int), (0 : Int)) then some Dir.LEFT
  else none

/-- Stable sort, descending by score (second component);
python list.sort(reverse=True) is stable, so an earlier element stays
in front of a later element with the same score, which insertion sort
reproduces. -/
def sortByScoreDesc (l : List (Dir × Int × Nat)) : List (Dir × Int × Nat) :=
  l.insertionSort (fun a b => b.2.1 ≤ a.2.1)

/-- Stable sort, descending by space (second component). -/
def sortBySpaceDesc (l : List (Dir × Nat)) : List (Dir × Nat) :=
  l.insertionSort (fun a b => b.2 ≤ a.2)

/-- BotAI._random_safe_direction.  pickBest is the draw
random.random() < 0.7 used to choose between the two best
candidates. -/
def randomSafeDirection (snake : Snake) (others : List (List Pos))
    (pickBest : Bool) : Option Dir :=
  let directions := [Dir.UP, Dir.DOWN, Dir.LEFT, Dir.RIGHT].filter
    (fun d => reverseName snake.direction ≠ some d)
  let safe_directions := (directions.filter
      (fun d => decide (dirSafe snake others d))).map
    (fun d => (d, calculateSpaceAhead snake d others))
  match sortBySpaceDesc safe_directions with
  | [] => none
  | [c] => some c.1
  | c₀ :: c₁ :: _ => if pickBest then some c₀.1 else some c₁.1

/-- The candidate directions of _move_towards_food before the safety
filter: the x-axis direction first (RIGHT when dx > 0, LEFT when
dx < 0), then the y-axis direction (DOWN when dy > 0, UP when dy < 0). -/
def possibleDirections (dx dy : Int) : List Dir :=
  (if dx > 0 then [Dir.RIGHT] else if dx < 0 then [Dir.LEFT] else [])
    ++ (if dy > 0 then [Dir.DOWN] else if dy < 0 then [Dir.UP] else [])

/-- python min over a nonempty list keyed by Manhattan distance to
head: the first element attaining the minimum. -/
def nearestFood (head : Pos) (f : Pos) (fs : List Pos) : Pos :=
  fs.foldl (fun best g =>
    if manhattan g head < manhattan best head then g else best) f

/-- The per-candidate evaluation of _move_towards_food: for each safe
candidate, its score and lookahead free space. -/
def evaluatedDirections (snake : Snake) (target : Pos)
    (others : List (List Pos)) : List (Dir × Int × Nat) :=
  let head := snake.body.headD (0, 0)
  (possibleDirections (target.1 - head.1) (target.2 - head.2)).filterMap
    (fun d =>
      if dirSafe snake others d then
        let space_ahead := calculateSpaceAhead snake d others
        let distance_to_food := manhattan target (stepPos head (dirVec d))
        let score : Int :=
          if space_ahead ≥ 1 then -distance_to_food * 50 + space_ahead
          else -distance_to_food * 10 - space_ahead * 100
        some (d, score, space_ahead)
      else none)

/-- BotAI._move_towards_food. -/
def moveTowardsFood (snake : Snake) (foods : List Pos)
    (others : List (List Pos)) (pickBest : Bool) : Option Dir :=
  match foods with
  | [] => randomSafeDirection snake others pickBest
  | f :: fs =>
    let head := snake.body.headD (0, 0)
    let target := nearestFood head f fs
    match sortByScoreDesc (evaluatedDirections snake target others) with
    | [] => randomSafeDirection snake others pickBest
    | [c] => some c.1
    | c₀ :: c₁ :: _ =>
      if c₀.2.2 < 2 ∧ c₁.2.2 > c₀.2.2 + 1 then some c₁.1 else some c₀.1

/-- BotAI.choose_direction: useGoal is the draw
random.random() > random_chance. -/
def chooseDirection (snake : Snake) (foods : List Pos)
    (others : List (List Pos)) (useGoal pickBest : Bool) : Option Dir :=
  if useGoal then moveTowardsFood snake foods others pickBest
  else randomSafeDirection snake others pickBest

/-! ### The World (class MultiPlayerGame)

The Python players dict (player_id -> Player, insertion ordered, keys
unique) is modelled as a list of Players in insertion order; bot_ais
as a list of (player_id, level) pairs. -/

/-- The SNAKE_COLORS palette. -/
def SNAKE_COLORS : List (Nat × Nat × Nat) :=
  [(0, 255, 0), (0, 0, 255), (255, 165, 0), (255, 0, 255),
   (0, 255, 255), (255, 255, 0), (255, 192, 203), (128, 0, 128)]

/-- The start-position nudge loop: while the candidate is occupied,
move one cell to the right.  fuel bounds the loop; with fuel
occupied.length + 1 the loop always exits at an unoccupied cell. -/
def nudge (occupied : List Pos) : Pos → Nat → Pos
  | p, 0 => p
  | p, fuel + 1 => if p ∈ occupied then nudge occupied (p.1 + 1, p.2) fuel else p

/-- The start position chosen for player_id against the occupied cells:
(5, 5 + player_id * 5), nudged rightward until free. -/
def startPos (occupied : List Pos) (player_id : Nat) : Pos :=
  nudge occupied ((5 : Int), 5 + (player_id : Int) * 5) (occupied.length + 1)

structure Game where
  players : List Player
  foods : List Food
  last_update_time : Time
  next_player_id : Nat
  color_index : Nat
  num_bots : Nat
  bot_level : Nat
  bot_ais : List (Nat × Nat)
  bot_index : Nat
  bots_initialized : Bool
  last_human_alive_time : Option Time

/-- MultiPlayerGame.__init__ at construction time t0. -/
def Game.init (num_bots bot_level : Nat) (t0 : Time) : Game :=
  { players := [], foods := [], last_update_time := t0
    next_player_id := 0, color_index := 0
    num_bots := num_bots, bot_level := bot_level
    bot_ais := [], bot_index := 0, bots_initialized := false
    last_human_alive_time := none }

/-- The while-loop of update_food_count that appends new foods one at a
time, each randomized against the occupancy including the foods already
appended.  rng k is the draw stream of the k-th appended food. -/
def addFoods : List Food → List Pos → Nat → (Nat → Nat → Pos) → List Food
  | foods, _, 0, _ => foods
  | foods, occupied, need + 1, rng =>
    let food := Food.mkInit.randomize occupied (rng 0)
    addFoods (foods ++ [food]) (occupied ++ [food.position]) need
      (fun k => rng (k + 1))

/-- MultiPlayerGame.update_food_count: pop foods from the end while
there are more foods than players, then append randomized foods while
there are fewer. -/
def Game.update_food_count (g : Game) (rng : Nat → Nat → Pos) : Game :=
  let num_players := g.players.length
  let foods := g.foods.take num_players
  let occupied := (g.players.map (fun p => p.snake.body)).flatten
    ++ foods.map (fun f => f.position)
  { g with foods := addFoods foods occupied (num_players - foods.length) rng }

/-- MultiPlayerGame.add_player.  The returned player id is the
pre-state next_player_id and the color is
SNAKE_COLORS[color_index mod 8]; both are determined by the pre-state,
so the model returns only the new Game. -/
def Game.add_player (g : Game) (letter : Char) (is_bot : Bool)
    (rng : Nat → Nat → Pos) : Game :=
  let player_id := g.next_player_id
  let color := (SNAKE_COLORS.get? (g.color_index % SNAKE_COLORS.length)).getD (0, 0, 0)
  let occupied := (g.players.map (fun p => p.snake.body)).flatten
  let start_pos := startPos occupied player_id
  let player :=
    { Player.mk' player_id color letter start_pos is_bot with
        bot_level := if is_bot then some g.bot_level else none }
  let g' :=
    { g with players := g.players ++ [player]
             next_player_id := player_id + 1
             color_index := g.color_index + 1
             bot_ais := if is_bot then g.bot_ais ++ [(player_id, min g.bot_level 9)]
                        else g.bot_ais }
  g'.update_food_count rng

/-- MultiPlayerGame.remove_player. -/
def Game.remove_player (g : Game) (player_id : Nat) (rng : Nat → Nat → Pos) :
    Game :=
  if (g.players.find? (fun p => p.player_id == player_id)).isSome then
    ({ g with players := g.players.filter (fun p => p.player_id ≠ player_id)
              bot_ais := g.bot_ais.filter (fun a => a.1 ≠ player_id)
     } : Game).update_food_count rng
  else g

/-- Update the player stored under player_id (the dict write
players[player_id].<field> = ...). -/
def Game.updatePlayer (g : Game) (player_id : Nat) (f : Player → Player) :
    Game :=
  { g with players := g.players.map
              (fun p => if p.player_id = player_id then f p else p) }

/-- MultiPlayerGame.change_direction: no-op for an unknown or dead
player; otherwise each keyword sets its unit vector unless the current
direction is the exact reverse. -/
def Game.change_direction (g : Game) (player_id : Nat) (d : Dir) : Game :=
  match g.players.find? (fun p => p.player_id == player_id) with
  | none => g
  | some player =>
    if player.game_over then g
    else
      match d with
      | Dir.UP =>
        if player.snake.direction ≠ ((0 : Int), (1 : Int)) then
          g.updatePlayer player_id
            (fun p => { p with snake := { p.snake with direction := (0, -1) } })
        else g
      | Dir.DOWN =>
        if player.snake.direction ≠ ((0 : Int), (-1 : Int)) then
          g.updatePlayer player_id
            (fun p => { p with snake := { p.snake with direction := (0, 1) } })
        else g
      | Dir.LEFT =>
        if player.snake.direction ≠ ((1 : Int), (0 : Int)) then
          g.updatePlayer player_id
            (fun p => { p with snake := { p.snake with direction := (-1, 0) } })
        else g
      | Dir.RIGHT =>
        if player.snake.direction ≠ ((-1 : Int), (0 : Int)) then
          g.updatePlayer player_id
            (fun p => { p with snake := { p.snake with direction := (1, 0) } })
        else g

/-- Reset the player at list index i at a freshly chosen start position
(the shared body of reset_player / reset_all_bots / reset_all_players). -/
def Game.resetIndex (g : Game) (i : Nat) : Game :=
  match g.players.get? i with
  | some p =>
    let occupied := ((g.players.filter
        (fun q => q.player_id ≠ p.player_id)).map (fun q => q.snake.body)).flatten
    { g with players := g.players.set i (p.reset (startPos occupied p.player_id)) }
  | none => g

/-- MultiPlayerGame.reset_player. -/
def Game.reset_player (g : Game) (player_id : Nat) : Game :=
  match (g.players.map (fun p => p.player_id)).indexOf? player_id with
  | some i => g.resetIndex i
  | none => g

/-- MultiPlayerGame.reset_all_bots: reset every bot in iteration order,
each against the occupancy left by the previous resets. -/
def Game.reset_all_bots (g : Game) : Game :=
  (List.range g.players.length).foldl
    (fun g i =>
      match g.players.get? i with
      | some p => if p.is_bot then g.resetIndex i else g
      | none => g) g

/-- MultiPlayerGame.reset_all_players. -/
def Game.reset_all_players (g : Game) : Game :=
  (List.range g.players.length).foldl (fun g i => g.resetIndex i) g

/-- The living non-bot players, in iteration order. -/
def Game.humanPlayersAlive (g : Game) : List Player :=
  g.players.filter (fun p => !p.is_bot && !p.game_over)

/-- MultiPlayerGame.is_last_human_player. -/
def Game.is_last_human_player (g : Game) (player_id : Nat) : Bool :=
  match g.players.find? (fun p => p.player_id == player_id) with
  | some player =>
    if !player.is_bot && !player.game_over then
      g.humanPlayersAlive.length == 1 &&
        match g.humanPlayersAlive.head? with
        | some q => q.player_id == player_id
        | none => false
    else false
  | none => false

/-- The RESTART_ALL branch of SnakeServer.handle_client: reset all
players only when the requester is the last human player alive. -/
def Game.handle_restart_all (g : Game) (player_id : Nat) : Game :=
  if g.is_last_human_player player_id then g.reset_all_players else g

/-! ### The simulation tick (MultiPlayerGame.update)

update is split into the five phases of the Python method body, in
order: bot directions, movement + timers, food, collisions, and the
last-human-alive bookkeeping.  useGoal i / pickBest i are the random
draws of the i-th entry of bot_ais; foodRng i j is the draw stream of
the respawn triggered by the player at index i eating the food at
index j. -/

/-- The snake bodies a deciding bot sees: the snakes of the living
players (the all_snakes list computed at the top of update), minus the
deciding snake itself (removed inside choose_direction by object
identity). -/
def Game.botConsidered (g : Game) (player_id : Nat) : List (List Pos) :=
  ((g.players.filter (fun p => !p.game_over)).filter
    (fun p => p.player_id ≠ player_id)).map (fun p => p.snake.body)

/-- One iteration of phase (a) for the i-th bot_ais entry. -/
def botStep (useGoal pickBest : Nat → Bool) (g : Game) (i : Nat) : Game :=
  match g.bot_ais.get? i with
  | some a =>
    match g.players.find? (fun p => p.player_id == a.1) with
    | some player =>
      if ¬ player.game_over then
        match chooseDirection player.snake (g.foods.map (fun f => f.position))
            (g.botConsidered a.1) (useGoal i) (pickBest i) with
        | some d => g.change_direction a.1 d
        | none => g
      else g
    | none => g
  | none => g

/-- Phase (a): for every living bot, in bot_ais order, choose a
direction over the living snakes and apply it through
change_direction. -/
def Game.botPhase (g : Game) (useGoal pickBest : Nat → Bool) : Game :=
  (List.range g.bot_ais.length).foldl (botStep useGoal pickBest) g

/-- The per-player body of phase (b)+(c). -/
def movePlayer (elapsed : Time) (p : Player) : Player :=
  if ¬ p.game_over then
    { p with snake := p.snake.move_snake
             game_timer := p.game_timer + elapsed
             food_timer := p.food_timer + elapsed }
  else p

/-- Phase (b)+(c): move every living snake and advance its timers by
the elapsed delta. -/
def Game.movePhase (g : Game) (elapsed : Time) : Game :=
  { g with players := g.players.map (movePlayer elapsed) }

/-- The inner food loop of phase (d) for one player: every food equal
to the player head sets the growth flag, increments the score, zeroes
the food timer and is respawned against the occupancy of all snake
bodies and all current food positions. -/
def foodStep (all_bodies : List (List Pos)) (player_head : Pos)
    (rng : Nat → Nat → Pos) (acc : Player × List Food) (j : Nat) :
    Player × List Food :=
  match acc.2.get? j with
  | some food =>
    if food.position = player_head then
      let p' := { acc.1 with snake := acc.1.snake.add_block
                             score := acc.1.score + 1
                             food_timer := 0 }
      let occupied := all_bodies.flatten ++ acc.2.map (fun f => f.position)
      (p', acc.2.set j (food.randomize occupied (rng j)))
    else acc
  | none => acc

def processFoods (all_bodies : List (List Pos)) (player_head : Pos)
    (p : Player) (fs : List Food) (rng : Nat → Nat → Pos) :
    Player × List Food :=
  (List.range fs.length).foldl (foodStep all_bodies player_head rng) (p, fs)

/-- One iteration of phase (d) for the player at index i. -/
def eatStep (all_bodies : List (List Pos)) (foodRng : Nat → Nat → Nat → Pos)
    (acc : List Player × List Food) (i : Nat) : List Player × List Food :=
  match acc.1.get? i with
  | some p =>
    if p.game_over then acc
    else
      let r := processFoods all_bodies (p.snake.body.headD (0, 0)) p acc.2
        (foodRng i)
      (acc.1.set i r.1, r.2)
  | none => acc

/-- Phase (d): the food loop over every living player, in order. -/
def Game.eatPhase (g : Game) (foodRng : Nat → Nat → Nat → Pos) : Game :=
  let all_bodies := g.players.map (fun p => p.snake.body)
  let pf := (List.range g.players.length).foldl
    (eatStep all_bodies foodRng) (g.players, g.foods)
  { g with players := pf.1, foods := pf.2 }

/-- The per-player body of phase (e): all is the full player list of
the phase (dead players included). -/
def collidePlayer (all : List Player) (p : Player) : Player :=
  if ¬ p.game_over then
    let others := (all.filter
        (fun q => q.player_id ≠ p.player_id)).map (fun q => q.snake.body)
    match p.snake.check_collision others with
    | some r => { p with game_over := true, game_over_reason := some r }
    | none => p
  else p

/-- Phase (e): every living player checks its snake against the bodies
of every other player (dead ones included) and records the first
collision reason. -/
def Game.collisionPhase (g : Game) : Game :=
  { g with players := g.players.map (collidePlayer g.players) }

/-- Phase (f): when exactly one non-bot player is alive, record the
current time unless already recorded; otherwise clear the record. -/
def Game.humanAlivePhase (g : Game) (now : Time) : Game :=
  if g.humanPlayersAlive.length = 1 then
    match g.last_human_alive_time with
    | none => { g with last_human_alive_time := some now }
    | some _ => g
  else { g with last_human_alive_time := none }

/-- MultiPlayerGame.update at wall-clock time now: a no-op unless at
least UPDATE_INTERVAL has elapsed since last_update_time. -/
def Game.update (g : Game) (now : Time) (useGoal pickBest : Nat → Bool)
    (foodRng : Nat → Nat → Nat → Pos) : Game :=
  let elapsed := now - g.last_update_time
  if elapsed ≥ UPDATE_INTERVAL then
    { ((((g.botPhase useGoal pickBest).movePhase elapsed).eatPhase
          foodRng).collisionPhase.humanAlivePhase now) with
      last_update_time := now }
  else g

/-! ### Snapshots (get_state) -/

/-- The per-player entry of the snapshot (Player.get_state).  The
display rounding of the two timers (round to 2 decimals of a second)
is not modelled; the raw millisecond values are kept. -/
structure PlayerState where
  player_id : Nat
  color : Nat × Nat × Nat
  letter : Char
  is_bot : Bool
  snake_position : List Pos
  snake_size : Nat
  score : Nat
  game_over : Bool
  game_over_reason : Option CollisionReason
  game_timer : Time
  food_timer : Time
deriving DecidableEq, Repr

/-- Player.get_state. -/
def Player.get_state (p : Player) : PlayerState :=
  { player_id := p.player_id, color := p.color, letter := p.letter
    is_bot := p.is_bot, snake_position := p.snake.body
    snake_size := p.snake.get_size, score := p.score
    game_over := p.game_over, game_over_reason := p.game_over_reason
    game_timer := p.game_timer, food_timer := p.food_timer }

/-- The snapshot returned to a client. -/
structure GameState where
  players : List PlayerState
  foods : List Pos
  your_player_id : Option Nat
  show_restart_message : Bool
deriving DecidableEq, Repr

/-- MultiPlayerGame.get_state, read at wall-clock time now: the
restart message is shown while at most 5 seconds (5000 ms) have passed since
last_human_alive_time was recorded. -/
def Game.get_state (g : Game) (now : Time) (player_id : Option Nat) : GameState :=
  { players := g.players.map Player.get_state
    foods := g.foods.map (fun f => f.position)
    your_player_id := player_id
    show_restart_message :=
      match g.last_human_alive_time with
      | some t => decide (now - t ≤ 5000)
      | none => false }

/-! ### Operation sequences over the World -/

/-- One World operation, with all of its random draws and wall-clock
inputs recorded in the operation itself. -/
inductive Op where
  | addPlayer (letter : Char) (is_bot : Bool) (rng : Nat → Nat → Pos)
  | removePlayer (player_id : Nat) (rng : Nat → Nat → Pos)
  | tick (now : Time) (useGoal pickBest : Nat → Bool)
      (foodRng : Nat → Nat → Nat → Pos)
  | resetPlayer (player_id : Nat)
  | resetAllBots
  | resetAllPlayers

/-- Apply one operation to the World. -/
def applyOp (g : Game) : Op → Game
  | Op.addPlayer letter is_bot rng => g.add_player letter is_bot rng
  | Op.removePlayer player_id rng => g.remove_player player_id rng
  | Op.tick now useGoal pickBest foodRng => g.update now useGoal pickBest foodRng
  | Op.resetPlayer player_id => g.reset_player player_id
  | Op.resetAllBots => g.reset_all_bots
  | Op.resetAllPlayers => g.reset_all_players

/-- Apply a sequence of operations, oldest first. -/
def runOps (g : Game) (ops : List Op) : Game := ops.foldl applyOp g

/-! ## Helper lemmas

The players field models a Python dict keyed by player_id, so the
reachable states have pairwise distinct ids; the two lemmas below
recover dict lookup from List.find? under that hypothesis. -/

theorem find_player_none (l : List Player) (player_id : Nat)
    (h : ∀ p ∈ l, p.player_id ≠ player_id) :
    l.find? (fun q => q.player_id == player_id) = none := by
  rw [List.find?_eq_none]
  intro p hp
  simpa using h p hp

theorem find_player_eq (l : List Player) (p : Player)
    (hids : (l.map (fun q => q.player_id)).Nodup)
    (hp : p ∈ l) :
    l.find? (fun q => q.player_id == p.player_id) = some p := by
  induction l with
  | nil => cases hp
  | cons a t ih =>
    rw [List.map_cons, List.nodup_cons] at hids
    rcases hids with ⟨ha, ht⟩
    cases hp with
    | head => simp
    | tail _ hmem =>
      have hne : (a.player_id == p.player_id) = false := by
        simp only [beq_eq_false_iff_ne, ne_eq]
        intro he
        exact ha (he ▸ List.mem_map_of_mem (fun q => q.player_id) hmem)
      rw [List.find?_cons, hne]
      exact ih ht hmem

/-- A foldl keeps every projection its step function keeps. -/
theorem foldl_preserves {γ α β : Type _} (f : γ → α → γ) (proj : γ → β)
    (l : List α) (g : γ) (h : ∀ x a, proj (f x a) = proj x) :
    proj (l.foldl f g) = proj g := by
  induction l generalizing g with
  | nil => rfl
  | cons a t ih => rw [List.foldl_cons, ih, h]

/-- change_direction only touches the players list, and only the
direction field of one snake. -/
theorem change_direction_fields (g : Game) (player_id : Nat) (d : Dir) :
    (fun g : Game => (g.last_human_alive_time, g.foods, g.players.length,
        g.last_update_time, g.bot_ais)) (g.change_direction player_id d)
      = (fun g : Game => (g.last_human_alive_time, g.foods, g.players.length,
        g.last_update_time, g.bot_ais)) g := by
  unfold Game.change_direction Game.updatePlayer
  cases g.players.find? (fun p => p.player_id == player_id) with
  | none => rfl
  | some p => cases d <;> dsimp only <;> split_ifs <;> simp

/-- Replacing a list entry by one with the same image under f leaves
the mapped list unchanged. -/
theorem map_set_eq {α β : Type _} (l : List α) (i : Nat) (a : α) (f : α → β)
    (h : ∀ p, l.get? i = some p → f a = f p) :
    (l.set i a).map f = l.map f := by
  induction l generalizing i with
  | nil => rfl
  | cons x t ih =>
    cases i with
    | zero =>
      rw [List.set_cons_zero, List.map_cons, List.map_cons, h x rfl]
    | succ n =>
      rw [List.set_cons_succ, List.map_cons, List.map_cons,
        ih n (fun p hp => h p hp)]

/-- The bot phase only changes snake directions. -/
theorem botPhase_fields (g : Game) (useGoal pickBest : Nat → Bool) :
    (fun g : Game => (g.last_human_alive_time, g.foods, g.players.length,
        g.last_update_time, g.bot_ais)) (g.botPhase useGoal pickBest)
      = (fun g : Game => (g.last_human_alive_time, g.foods, g.players.length,
        g.last_update_time, g.bot_ais)) g := by
  unfold Game.botPhase
  refine foldl_preserves (botStep useGoal pickBest)
    (fun g : Game => (g.last_human_alive_time, g.foods, g.players.length,
      g.last_update_time, g.bot_ais)) (List.range g.bot_ais.length) g ?_
  intro x i
  unfold botStep
  cases h1 : x.bot_ais.get? i with
  | none => rfl
  | some a =>
    dsimp only
    cases h2 : x.players.find? (fun p => p.player_id == a.1) with
    | none => rfl
    | some player =>
      dsimp only
      split_ifs with h3
      · rfl
      · rcases hc : chooseDirection player.snake (x.foods.map (fun f => f.position))
            (x.botConsidered a.1) (useGoal i) (pickBest i) with _ | d
        · rw [hc]
        · rw [hc]
          exact change_direction_fields x a.1 d

/-- The move phase only changes snakes and timers of players. -/
theorem movePhase_fields (g : Game) (elapsed : Time) :
    (g.movePhase elapsed).players.length = g.players.length ∧
    (g.movePhase elapsed).foods = g.foods ∧
    (g.movePhase elapsed).last_human_alive_time = g.last_human_alive_time ∧
    (g.movePhase elapsed).last_update_time = g.last_update_time ∧
    (g.movePhase elapsed).bot_ais = g.bot_ais := by
  unfold Game.movePhase
  simp

/-- The per-player food loop keeps the player identity, liveness,
bot-ness and body, and the number of foods. -/
theorem processFoods_proj (all_bodies : List (List Pos)) (player_head : Pos)
    (p : Player) (fs : List Food) (rng : Nat → Nat → Pos) :
    (fun pf : Player × List Food =>
        (pf.1.player_id, pf.1.game_over, pf.1.is_bot, pf.1.snake.body,
         pf.2.length)) (processFoods all_bodies player_head p fs rng)
      = (p.player_id, p.game_over, p.is_bot, p.snake.body, fs.length) := by
  unfold processFoods
  refine foldl_preserves (foodStep all_bodies player_head rng)
    (fun pf : Player × List Food =>
      (pf.1.player_id, pf.1.game_over, pf.1.is_bot, pf.1.snake.body,
       pf.2.length)) (List.range fs.length) (p, fs) ?_
  intro x j
  unfold foodStep
  cases h1 : x.2.get? j with
  | none => rfl
  | some food =>
    dsimp only
    split_ifs with h2
    · simp [Snake.add_block]
    · rfl

/-- One food-phase step keeps the per-player projection of every
player and the number of foods. -/
theorem eatStep_proj (all_bodies : List (List Pos))
    (foodRng : Nat → Nat → Nat → Pos) (acc : List Player × List Food)
    (i : Nat) :
    (fun acc : List Player × List Food =>
        (acc.1.map (fun p => (p.player_id, p.game_over, p.is_bot, p.snake.body)),
         acc.2.length)) (eatStep all_bodies foodRng acc i)
      = (acc.1.map (fun p => (p.player_id, p.game_over, p.is_bot, p.snake.body)),
         acc.2.length) := by
  unfold eatStep
  cases h1 : acc.1.get? i with
  | none => rfl
  | some p =>
    dsimp only
    split_ifs with h2
    · rfl
    · have hp := processFoods_proj all_bodies (p.snake.body.headD (0, 0)) p
        acc.2 (foodRng i)
      simp only [Prod.mk.injEq] at hp
      dsimp only
      rw [Prod.mk.injEq]
      constructor
      · refine map_set_eq _ _ _ _ ?_
        intro q hq
        rw [h1] at hq
        cases hq
        rw [Prod.mk.injEq, Prod.mk.injEq, Prod.mk.injEq]
        exact ⟨hp.1, hp.2.1, hp.2.2.1, hp.2.2.2.1⟩
      · exact hp.2.2.2.2

/-- The food phase keeps the number of players and of foods, every
player identity, liveness, bot-ness and body, and the untouched Game
fields. -/
theorem eatPhase_fields (g : Game) (foodRng : Nat → Nat → Nat → Pos) :
    ((g.eatPhase foodRng).players.map
        (fun p => (p.player_id, p.game_over, p.is_bot, p.snake.body))
      = g.players.map
        (fun p => (p.player_id, p.game_over, p.is_bot, p.snake.body))) ∧
    (g.eatPhase foodRng).foods.length = g.foods.length ∧
    (g.eatPhase foodRng).last_human_alive_time = g.last_human_alive_time ∧
    (g.eatPhase foodRng).last_update_time = g.last_update_time ∧
    (g.eatPhase foodRng).bot_ais = g.bot_ais := by
  have key := foldl_preserves
    (eatStep (g.players.map (fun p => p.snake.body)) foodRng)
    (fun acc : List Player × List Food =>
      (acc.1.map (fun p => (p.player_id, p.game_over, p.is_bot, p.snake.body)),
       acc.2.length))
    (List.range g.players.length) (g.players, g.foods)
    (fun x i => eatStep_proj _ foodRng x i)
  rw [Prod.mk.injEq] at key
  exact ⟨key.1, key.2, rfl, rfl, rfl⟩

/-- The collision phase only changes liveness flags and reasons. -/
theorem collisionPhase_fields (g : Game) :
    (g.collisionPhase).players.length = g.players.length ∧
    (g.collisionPhase).foods = g.foods ∧
    (g.collisionPhase).last_human_alive_time = g.last_human_alive_time ∧
    (g.collisionPhase).last_update_time = g.last_update_time ∧
    (g.collisionPhase).bot_ais = g.bot_ais := by
  unfold Game.collisionPhase
  simp

/-- The last-human bookkeeping only changes last_human_alive_time. -/
theorem humanAlivePhase_fields (g : Game) (now : Time) :
    (g.humanAlivePhase now).players = g.players ∧
    (g.humanAlivePhase now).foods = g.foods ∧
    (g.humanAlivePhase now).last_update_time = g.last_update_time ∧
    (g.humanAlivePhase now).bot_ais = g.bot_ais := by
  unfold Game.humanAlivePhase
  split_ifs
  · cases g.last_human_alive_time <;> exact ⟨rfl, rfl, rfl, rfl⟩
  · exact ⟨rfl, rfl, rfl, rfl⟩

/-- A foldl preserves every invariant its step function preserves. -/
theorem foldl_invariant {γ α : Type _} (f : γ → α → γ) (P : γ → Prop)
    (l : List α) (g : γ) (h0 : P g) (h : ∀ x a, P x → P (f x a)) :
    P (l.foldl f g) := by
  induction l generalizing g with
  | nil => exact h0
  | cons a t ih => exact ih (f g a) (h g a h0)

/-- updatePlayer leaves entries with a different id untouched. -/
theorem updatePlayer_get_ne (g : Game) (player_id : Nat) (f : Player → Player)
    (i : Nat) (p : Player) (hp : g.players.get? i = some p)
    (hne : p.player_id ≠ player_id) :
    (g.updatePlayer player_id f).players.get? i = some p := by
  unfold Game.updatePlayer
  rw [List.get?_map, hp]
  simp [hne]

/-- change_direction leaves entries with a different id untouched. -/
theorem change_direction_get_ne (g : Game) (player_id : Nat) (d : Dir)
    (i : Nat) (p : Player) (hp : g.players.get? i = some p)
    (hne : p.player_id ≠ player_id) :
    (g.change_direction player_id d).players.get? i = some p := by
  unfold Game.change_direction
  cases hf : g.players.find? (fun q => q.player_id == player_id) with
  | none => exact hp
  | some player =>
    dsimp only
    by_cases h1 : player.game_over = true
    · rw [if_pos h1]
      exact hp
    · rw [if_neg h1]
      cases d <;> dsimp only <;> split_ifs <;>
        first
          | exact updatePlayer_get_ne g player_id _ i p hp hne
          | exact hp

/-- The bot phase leaves a player untouched when no bot_ais entry
carries its id. -/
theorem botPhase_get (g : Game) (useGoal pickBest : Nat → Bool) (i : Nat)
    (p : Player) (hp : g.players.get? i = some p)
    (hb : ∀ a ∈ g.bot_ais, a.1 ≠ p.player_id) :
    (g.botPhase useGoal pickBest).players.get? i = some p := by
  unfold Game.botPhase
  have key := foldl_invariant (botStep useGoal pickBest)
    (fun x : Game => x.players.get? i = some p ∧ x.bot_ais = g.bot_ais)
    (List.range g.bot_ais.length) g ⟨hp, rfl⟩ ?_
  · exact key.1
  · intro x k hx
    unfold botStep
    cases h1 : x.bot_ais.get? k with
    | none => exact hx
    | some a =>
      have ha : a ∈ g.bot_ais := hx.2 ▸ List.get?_mem h1
      have hane : a.1 ≠ p.player_id := hb a ha
      dsimp only
      cases h2 : x.players.find? (fun q => q.player_id == a.1) with
      | none => exact hx
      | some player =>
        dsimp only
        split_ifs with h3
        · exact hx
        · cases hc : chooseDirection player.snake
              (x.foods.map (fun f => f.position)) (x.botConsidered a.1)
              (useGoal k) (pickBest k) with
          | none => exact hx
          | some d =>
            refine ⟨change_direction_get_ne x a.1 d i p hx.1 ?_, ?_⟩
            · intro he
              exact hane he.symm
            · have := change_direction_fields x a.1 d
              simp only [Prod.mk.injEq] at this
              rw [this.2.2.2.2]
              exact hx.2

/-- The entry of a list keyed by the id of q is q itself (the dict
model: pairwise distinct ids). -/
def uniqEntry (l : List Player) (q : Player) : Prop :=
  ∀ p' ∈ l, p'.player_id = q.player_id → p' = q

/-- Nodup ids give uniqEntry for every member. -/
theorem nodup_uniqEntry (l : List Player) (q : Player)
    (hids : (l.map (fun p => p.player_id)).Nodup) (hq : q ∈ l) :
    uniqEntry l q := by
  induction l with
  | nil => cases hq
  | cons a t ih =>
    rw [List.map_cons, List.nodup_cons] at hids
    rcases hids with ⟨ha, ht⟩
    intro p' hp' he
    rcases List.mem_cons.mp hq with hq1 | hq2
    · rcases List.mem_cons.mp hp' with hp1 | hp2
      · rw [hp1, ← hq1]
      · exfalso
        apply ha
        have hmem : p'.player_id ∈ t.map (fun p => p.player_id) :=
          List.mem_map_of_mem (fun p => p.player_id) hp2
        rw [he, hq1] at hmem
        exact hmem
    · rcases List.mem_cons.mp hp' with hp1 | hp2
      · exfalso
        apply ha
        have hmem : q.player_id ∈ t.map (fun p => p.player_id) :=
          List.mem_map_of_mem (fun p => p.player_id) hq2
        rw [← he, hp1] at hmem
        exact hmem
      · exact ih ht hq2 p' hp2 he

/-- find? by the id of q returns q under uniqEntry. -/
theorem find_eq_of_uniq (l : List Player) (q : Player) (hq : q ∈ l)
    (hu : uniqEntry l q) :
    l.find? (fun p => p.player_id == q.player_id) = some q := by
  induction l with
  | nil => cases hq
  | cons a t ih =>
    by_cases h : a.player_id = q.player_id
    · have ha : a = q := hu a (List.mem_cons_self a t) h
      rw [List.find?_cons, show (a.player_id == q.player_id) = true by simp [h]]
      rw [ha]
    · rw [List.find?_cons, show (a.player_id == q.player_id) = false by simp [h]]
      have hq2 : q ∈ t := by
        rcases List.mem_cons.mp hq with h1 | h2
        · exact absurd (by rw [h1]) h
        · exact h2
      exact ih hq2 (fun p' hp' => hu p' (List.mem_cons_of_mem a hp'))

/-- change_direction keeps a dead entry exactly, and keeps the dict
model around it. -/
theorem change_direction_dead (g : Game) (player_id : Nat) (d : Dir)
    (j : Nat) (q : Player) (hq : g.players.get? j = some q)
    (hd : q.game_over = true) (hu : uniqEntry g.players q) :
    (g.change_direction player_id d).players.get? j = some q ∧
    uniqEntry (g.change_direction player_id d).players q := by
  by_cases hid : player_id = q.player_id
  · subst hid
    unfold Game.change_direction
    rw [find_eq_of_uniq g.players q (List.get?_mem hq) hu]
    dsimp only
    rw [if_pos hd]
    exact ⟨hq, hu⟩
  · have hne : q.player_id ≠ player_id := fun he => hid he.symm
    refine ⟨change_direction_get_ne g player_id d j q hq hne, ?_⟩
    intro p' hp' he
    unfold Game.change_direction at hp'
    cases hf : g.players.find? (fun r => r.player_id == player_id) with
    | none =>
      rw [hf] at hp'
      exact hu p' hp' he
    | some player =>
      rw [hf] at hp'
      dsimp only at hp'
      by_cases h1 : player.game_over = true
      · rw [if_pos h1] at hp'
        exact hu p' hp' he
      · rw [if_neg h1] at hp'
        have main : ∀ f : Player → Player,
            p' ∈ (g.updatePlayer player_id f).players
            → (∀ r, (f r).player_id = r.player_id) → p' = q := by
          intro f hmem hfid
          unfold Game.updatePlayer at hmem
          rcases List.mem_map.mp hmem with ⟨r, hr, hrp⟩
          by_cases h2 : r.player_id = player_id
          · exfalso
            rw [← hrp] at he
            rw [if_pos h2] at he
            rw [hfid r] at he
            exact hid (h2.symm.trans he)
          · rw [← hrp, if_neg h2]
            apply hu r hr
            rw [← hrp, if_neg h2] at he
            exact he
        cases d <;> dsimp only at hp' <;> revert hp' <;> split_ifs with h2 <;>
            intro hp' <;>
          first
            | exact hu p' hp' he
            | exact main _ hp' (fun r => rfl)

/-- The bot phase keeps a dead entry exactly. -/
theorem botPhase_get_dead (g : Game) (useGoal pickBest : Nat → Bool)
    (j : Nat) (q : Player) (hq : g.players.get? j = some q)
    (hd : q.game_over = true) (hu : uniqEntry g.players q) :
    (g.botPhase useGoal pickBest).players.get? j = some q ∧
    uniqEntry (g.botPhase useGoal pickBest).players q := by
  unfold Game.botPhase
  exact foldl_invariant (botStep useGoal pickBest)
    (fun x : Game => x.players.get? j = some q ∧ uniqEntry x.players q)
    (List.range g.bot_ais.length) g ⟨hq, hu⟩ (by
      intro x k hx
      unfold botStep
      cases h1 : x.bot_ais.get? k with
      | none => exact hx
      | some a =>
        dsimp only
        cases h2 : x.players.find? (fun r => r.player_id == a.1) with
        | none => exact hx
        | some player =>
          dsimp only
          split_ifs with h3
          · exact hx
          · cases hc : chooseDirection player.snake
                (x.foods.map (fun f => f.position)) (x.botConsidered a.1)
                (useGoal k) (pickBest k) with
            | none => exact hx
            | some d => exact change_direction_dead x a.1 d j q hx.1 hd hx.2)

/-- The move phase maps each entry through movePlayer. -/
theorem movePhase_get (g : Game) (elapsed : Time) (i : Nat) (p : Player)
    (hp : g.players.get? i = some p) :
    (g.movePhase elapsed).players.get? i = some (movePlayer elapsed p) := by
  unfold Game.movePhase
  rw [List.get?_map, hp]
  rfl

/-- The food phase keeps each entry's id, liveness, bot-ness and
body. -/
theorem eatPhase_get (g : Game) (foodRng : Nat → Nat → Nat → Pos) (i : Nat)
    (p : Player) (hp : g.players.get? i = some p) :
    ∃ p', (g.eatPhase foodRng).players.get? i = some p' ∧
      p'.player_id = p.player_id ∧ p'.game_over = p.game_over ∧
      p'.is_bot = p.is_bot ∧ p'.snake.body = p.snake.body := by
  have hmap := (eatPhase_fields g foodRng).1
  have hmi := congrArg (fun l => l.get? i) hmap
  dsimp only at hmi
  rw [List.get?_map, List.get?_map, hp] at hmi
  cases hgi : (g.eatPhase foodRng).players.get? i with
  | none => rw [hgi] at hmi; cases hmi
  | some p' =>
    rw [hgi] at hmi
    simp only [Option.map_some', Option.some.injEq, Prod.mk.injEq] at hmi
    exact ⟨p', rfl, hmi.1, hmi.2.1, hmi.2.2.1, hmi.2.2.2⟩

/-- The food phase keeps a dead entry exactly. -/
theorem eatPhase_get_dead (g : Game) (foodRng : Nat → Nat → Nat → Pos)
    (j : Nat) (q : Player) (hq : g.players.get? j = some q)
    (hd : q.game_over = true) :
    (g.eatPhase foodRng).players.get? j = some q := by
  unfold Game.eatPhase
  have key := foldl_invariant
    (eatStep (g.players.map (fun p => p.snake.body)) foodRng)
    (fun acc : List Player × List Food => acc.1.get? j = some q)
    (List.range g.players.length) (g.players, g.foods) hq ?_
  · exact key
  · intro x k hx
    unfold eatStep
    cases h1 : x.1.get? k with
    | none => exact hx
    | some p =>
      dsimp only
      split_ifs with h2
      · exact hx
      · show (x.1.set k _).get? j = some q
        by_cases hkj : k = j
        · exfalso
          rw [hkj, hx] at h1
          cases h1
          exact h2 hd
        · rw [List.get?_set_ne _ _ hkj]
          exact hx

/-- The collision phase maps each entry through collidePlayer. -/
theorem collisionPhase_get (g : Game) (i : Nat) (p : Player)
    (hp : g.players.get? i = some p) :
    (g.collisionPhase).players.get? i = some (collidePlayer g.players p) := by
  unfold Game.collisionPhase
  rw [List.get?_map, hp]
  rfl

/-- addFoods appends exactly the requested number of foods. -/
theorem addFoods_length (need : Nat) (foods : List Food) (occupied : List Pos)
    (rng : Nat → Nat → Pos) :
    (addFoods foods occupied need rng).length = foods.length + need := by
  induction need generalizing foods occupied rng with
  | zero => rfl
  | succ n ih =>
    unfold addFoods
    rw [ih]
    simp
    omega

/-- update_food_count makes the number of foods equal to the number of
players, and changes nothing else. -/
theorem update_food_count_fields (g : Game) (rng : Nat → Nat → Pos) :
    (g.update_food_count rng).foods.length = g.players.length ∧
    (g.update_food_count rng).players = g.players ∧
    (g.update_food_count rng).last_human_alive_time = g.last_human_alive_time ∧
    (g.update_food_count rng).bot_ais = g.bot_ais := by
  refine ⟨?_, rfl, rfl, rfl⟩
  show (addFoods _ _ _ _).length = _
  rw [addFoods_length]
  simp only [List.length_take]
  omega

/-- One resetIndex step keeps the number of players and the foods. -/
theorem resetIndex_fields (g : Game) (i : Nat) :
    (g.resetIndex i).players.length = g.players.length ∧
    (g.resetIndex i).foods = g.foods ∧
    (g.resetIndex i).last_human_alive_time = g.last_human_alive_time ∧
    (g.resetIndex i).last_update_time = g.last_update_time ∧
    (g.resetIndex i).bot_ais = g.bot_ais := by
  unfold Game.resetIndex
  cases h : g.players.get? i with
  | none => exact ⟨rfl, rfl, rfl, rfl, rfl⟩
  | some p => simp

/-- update keeps the number of players and the number of foods. -/
theorem update_lengths (g : Game) (now : Time) (useGoal pickBest : Nat → Bool)
    (foodRng : Nat → Nat → Nat → Pos) :
    (g.update now useGoal pickBest foodRng).players.length
      = g.players.length ∧
    (g.update now useGoal pickBest foodRng).foods.length
      = g.foods.length := by
  unfold Game.update
  dsimp only
  split_ifs with h
  · have h1 := botPhase_fields g useGoal pickBest
    simp only [Prod.mk.injEq] at h1
    have h2 := movePhase_fields (g.botPhase useGoal pickBest)
      (now - g.last_update_time)
    have h3 := eatPhase_fields ((g.botPhase useGoal pickBest).movePhase
      (now - g.last_update_time)) foodRng
    have h3l := congrArg List.length h3.1
    simp only [List.length_map] at h3l
    have h4 := collisionPhase_fields (((g.botPhase useGoal pickBest).movePhase
      (now - g.last_update_time)).eatPhase foodRng)
    have h5 := humanAlivePhase_fields ((((g.botPhase useGoal pickBest).movePhase
      (now - g.last_update_time)).eatPhase foodRng).collisionPhase) now
    constructor
    · rw [h5.1, h4.1, h3l, h2.1, h1.2.2.1]
    · rw [h5.2.1, h4.2.1, h3.2.1, h2.2.1, h1.2.1]
  · exact ⟨rfl, rfl⟩

/-- reset_all_players keeps the player count and the foods. -/
theorem reset_all_players_fields (g : Game) :
    (fun g : Game => (g.players.length, g.foods)) g.reset_all_players
      = (g.players.length, g.foods) := by
  unfold Game.reset_all_players
  refine foldl_preserves (fun (x : Game) (i : Nat) => x.resetIndex i)
    (fun g : Game => (g.players.length, g.foods))
    (List.range g.players.length) g ?_
  intro x i
  have h := resetIndex_fields x i
  simp [h.1, h.2.1]

/-- reset_all_bots keeps the player count and the foods. -/
theorem reset_all_bots_fields (g : Game) :
    (fun g : Game => (g.players.length, g.foods)) g.reset_all_bots
      = (g.players.length, g.foods) := by
  unfold Game.reset_all_bots
  refine foldl_preserves _ (fun g : Game => (g.players.length, g.foods))
    (List.range g.players.length) g ?_
  intro x i
  cases h : x.players.get? i with
  | none => rfl
  | some p =>
    dsimp only
    split_ifs with hb
    · have h := resetIndex_fields x i
      simp [h.1, h.2.1]
    · rfl

/-- C1: starting from a freshly constructed World, after every
sequence of operations (addPlayer, removePlayer, tick, resetPlayer,
resetAllBots, resetAllPlayers) the number of Food objects equals the
number of Players; in particular each add or remove re-establishes the
equality through update_food_count, and every tick preserves both
counts.  Since every prefix of ops is itself a sequence of operations,
the equality holds immediately after every add, remove and tick of the
sequence. -/
theorem food_count_invariant (num_bots bot_level : Nat) (t0 : Time)
    (ops : List Op) :
    (runOps (Game.init num_bots bot_level t0) ops).foods.length
      = (runOps (Game.init num_bots bot_level t0) ops).players.length := by
  have key : ∀ (g2 : Game) (rng : Nat → Nat → Pos),
      (g2.update_food_count rng).foods.length
        = (g2.update_food_count rng).players.length := by
    intro g2 rng
    have h := update_food_count_fields g2 rng
    rw [h.1, h.2.1]
  suffices h : ∀ (g : Game), g.foods.length = g.players.length →
      ∀ ops, (runOps g ops).foods.length = (runOps g ops).players.length by
    exact h _ rfl ops
  intro g hg ops
  induction ops generalizing g with
  | nil => exact hg
  | cons op t ih =>
    show (runOps (applyOp g op) t).foods.length
      = (runOps (applyOp g op) t).players.length
    apply ih
    cases op with
    | addPlayer letter is_bot rng =>
      show (Game.add_player g letter is_bot rng).foods.length
        = (Game.add_player g letter is_bot rng).players.length
      exact key _ rng
    | removePlayer player_id rng =>
      show (Game.remove_player g player_id rng).foods.length
        = (Game.remove_player g player_id rng).players.length
      unfold Game.remove_player
      split_ifs with h
      · exact key _ rng
      · exact hg
    | tick now useGoal pickBest foodRng =>
      have h := update_lengths g now useGoal pickBest foodRng
      show (Game.update g now useGoal pickBest foodRng).foods.length
        = (Game.update g now useGoal pickBest foodRng).players.length
      rw [h.1, h.2, hg]
    | resetPlayer player_id =>
      show (Game.reset_player g player_id).foods.length
        = (Game.reset_player g player_id).players.length
      unfold Game.reset_player
      cases hi : (g.players.map (fun p => p.player_id)).indexOf? player_id with
      | none => exact hg
      | some i =>
        have h := resetIndex_fields g i
        rw [h.2.1, h.1, hg]
    | resetAllBots =>
      have h := reset_all_bots_fields g
      rw [Prod.mk.injEq] at h
      show (Game.reset_all_bots g).foods.length
        = (Game.reset_all_bots g).players.length
      rw [h.2, h.1, hg]
    | resetAllPlayers =>
      have h := reset_all_players_fields g
      rw [Prod.mk.injEq] at h
      show (Game.reset_all_players g).foods.length
        = (Game.reset_all_players g).players.length
      rw [h.2, h.1, hg]

/-- humanPlayersAlive only reads the players list. -/
theorem humanPlayersAlive_congr (g1 g2 : Game) (h : g1.players = g2.players) :
    g1.humanPlayersAlive = g2.humanPlayersAlive := by
  unfold Game.humanPlayersAlive
  rw [h]

/-- The value humanAlivePhase stores. -/
theorem humanAlivePhase_lhat (g : Game) (now : Time) :
    (g.humanAlivePhase now).last_human_alive_time
      = (if g.humanPlayersAlive.length = 1 then
          (match g.last_human_alive_time with
           | none => some now
           | some t => some t)
         else none) := by
  unfold Game.humanAlivePhase
  split_ifs with h
  · cases hl : g.last_human_alive_time with
    | none => rfl
    | some t => simp [hl]
  · rfl

/-- The snapshot restart flag as a function of the stored window
timestamp. -/
theorem get_state_show (g : Game) (t : Time) (player_id : Option Nat) :
    (g.get_state t player_id).show_restart_message
      = (match g.last_human_alive_time with
         | some t0 => decide (t - t0 ≤ 5000)
         | none => false) := rfl

/-- After a firing tick, the stored window timestamp is: kept or
started when the tick observes exactly one living human, cleared
otherwise. -/
theorem update_players_eq (g : Game) (now : Time)
    (useGoal pickBest : Nat → Bool) (foodRng : Nat → Nat → Nat → Pos)
    (hnow : now - g.last_update_time ≥ UPDATE_INTERVAL) :
    (g.update now useGoal pickBest foodRng).players
      = (((g.botPhase useGoal pickBest).movePhase
          (now - g.last_update_time)).eatPhase foodRng).collisionPhase.players := by
  unfold Game.update
  dsimp only
  rw [if_pos hnow]
  exact (humanAlivePhase_fields _ now).1

theorem update_lhat (g : Game) (now : Time) (useGoal pickBest : Nat → Bool)
    (foodRng : Nat → Nat → Nat → Pos)
    (hnow : now - g.last_update_time ≥ UPDATE_INTERVAL) :
    (g.update now useGoal pickBest foodRng).last_human_alive_time
      = (if (g.update now useGoal pickBest foodRng).humanPlayersAlive.length = 1
         then
          (match g.last_human_alive_time with
           | none => some now
           | some t => some t)
         else none) := by
  have h1 := botPhase_fields g useGoal pickBest
  simp only [Prod.mk.injEq] at h1
  have h2 := movePhase_fields (g.botPhase useGoal pickBest)
    (now - g.last_update_time)
  have h3 := eatPhase_fields ((g.botPhase useGoal pickBest).movePhase
    (now - g.last_update_time)) foodRng
  have h4 := collisionPhase_fields (((g.botPhase useGoal pickBest).movePhase
    (now - g.last_update_time)).eatPhase foodRng)
  have hg4 : (((g.botPhase useGoal pickBest).movePhase
      (now - g.last_update_time)).eatPhase foodRng).collisionPhase.last_human_alive_time
      = g.last_human_alive_time := by
    rw [h4.2.2.1, h3.2.2.1, h2.2.2.1, h1.1]
  have hhum := humanPlayersAlive_congr _ _
    (update_players_eq g now useGoal pickBest foodRng hnow)
  have hlh : (g.update now useGoal pickBest foodRng).last_human_alive_time
      = ((((g.botPhase useGoal pickBest).movePhase
          (now - g.last_update_time)).eatPhase
            foodRng).collisionPhase.humanAlivePhase now).last_human_alive_time := by
    unfold Game.update
    dsimp only
    rw [if_pos hnow]
  rw [hlh, humanAlivePhase_lhat, hg4, hhum]

/-- C7: when a firing tick observes exactly one living non-bot player
and no window was open, the window opens at the tick time: the
snapshot flag show_restart_message is true for the next 5 seconds
(5000 ms) of clock time and false afterwards.  When a firing tick
observes zero or more than one living non-bot players, the stored
timestamp is cleared and the flag is false at every read time. -/
theorem restart_window (g : Game) (now : Time) (useGoal pickBest : Nat → Bool)
    (foodRng : Nat → Nat → Nat → Pos) (player_id : Option Nat)
    (hnow : now - g.last_update_time ≥ UPDATE_INTERVAL) :
    (g.last_human_alive_time = none →
      (g.update now useGoal pickBest foodRng).humanPlayersAlive.length = 1 →
      (g.update now useGoal pickBest foodRng).last_human_alive_time = some now ∧
      ∀ t : Time,
        (t - now ≤ 5000 →
          ((g.update now useGoal pickBest foodRng).get_state t
            player_id).show_restart_message = true) ∧
        (t - now > 5000 →
          ((g.update now useGoal pickBest foodRng).get_state t
            player_id).show_restart_message = false))
    ∧ ((g.update now useGoal pickBest foodRng).humanPlayersAlive.length ≠ 1 →
      (g.update now useGoal pickBest foodRng).last_human_alive_time = none ∧
      ∀ t : Time,
        ((g.update now useGoal pickBest foodRng).get_state t
          player_id).show_restart_message = false) := by
  have hu := update_lhat g now useGoal pickBest foodRng hnow
  constructor
  · intro hpre h1
    rw [if_pos h1, hpre] at hu
    have hsome : (g.update now useGoal pickBest foodRng).last_human_alive_time
        = some now := hu
    refine ⟨hsome, ?_⟩
    intro t
    constructor
    · intro ht
      rw [get_state_show, hsome]
      simpa using ht
    · intro ht
      rw [get_state_show, hsome]
      show decide (t - now ≤ 5000) = false
      exact decide_eq_false (not_le.mpr ht)
  · intro h1
    rw [if_neg h1] at hu
    refine ⟨hu, ?_⟩
    intro t
    rw [get_state_show, hu]

/-- The head of a moved snake is the old head plus the direction, with
or without pending growth. -/
theorem move_snake_headD (s : Snake) :
    s.move_snake.body.headD (0, 0)
      = stepPos (s.body.headD (0, 0)) s.direction := by
  unfold Snake.move_snake
  split_ifs <;> rfl

/-- Tracking one living, non-bot-driven player through a firing tick:
its entry after the tick is its post-food image passed through
collidePlayer against the post-food player list. -/
theorem update_get_living (g : Game) (now : Time)
    (useGoal pickBest : Nat → Bool) (foodRng : Nat → Nat → Nat → Pos)
    (i : Nat) (p : Player) (hp : g.players.get? i = some p)
    (hb : ∀ a ∈ g.bot_ais, a.1 ≠ p.player_id)
    (halive : p.game_over = false)
    (hnow : now - g.last_update_time ≥ UPDATE_INTERVAL) :
    ∃ p'',
      (g.update now useGoal pickBest foodRng).players.get? i
        = some (collidePlayer
            ((((g.botPhase useGoal pickBest).movePhase
              (now - g.last_update_time)).eatPhase foodRng).players) p'') ∧
      p''.player_id = p.player_id ∧ p''.game_over = false ∧
      p''.snake.body = p.snake.move_snake.body := by
  have h1 : (g.botPhase useGoal pickBest).players.get? i = some p :=
    botPhase_get g useGoal pickBest i p hp hb
  have h2 := movePhase_get (g.botPhase useGoal pickBest)
    (now - g.last_update_time) i p h1
  have hmv : movePlayer (now - g.last_update_time) p
      = { p with snake := p.snake.move_snake
                 game_timer := p.game_timer + (now - g.last_update_time)
                 food_timer := p.food_timer + (now - g.last_update_time) } := by
    unfold movePlayer
    rw [if_pos]
    simp [halive]
  obtain ⟨p'', h3, hid2, hover2, _, hbody2⟩ :=
    eatPhase_get ((g.botPhase useGoal pickBest).movePhase
      (now - g.last_update_time)) foodRng i _ h2
  refine ⟨p'', ?_, ?_, ?_, ?_⟩
  · rw [update_players_eq g now useGoal pickBest foodRng hnow]
    exact collisionPhase_get _ i p'' h3
  · rw [hid2, hmv]
  · rw [hover2, hmv]
    exact halive
  · rw [hbody2, hmv]

/-- Tracking one dead player through a firing tick: its entry is
untouched, already at the point where collisions are decided. -/
theorem update_get_dead (g : Game) (now : Time)
    (useGoal pickBest : Nat → Bool) (foodRng : Nat → Nat → Nat → Pos)
    (j : Nat) (q : Player) (hq : g.players.get? j = some q)
    (hdead : q.game_over = true) (hu : uniqEntry g.players q)
    (hnow : now - g.last_update_time ≥ UPDATE_INTERVAL) :
    (g.update now useGoal pickBest foodRng).players.get? j = some q ∧
    (((g.botPhase useGoal pickBest).movePhase
      (now - g.last_update_time)).eatPhase foodRng).players.get? j = some q := by
  have h1 := botPhase_get_dead g useGoal pickBest j q hq hdead hu
  have h2 := movePhase_get (g.botPhase useGoal pickBest)
    (now - g.last_update_time) j q h1.1
  have hmv : movePlayer (now - g.last_update_time) q = q := by
    unfold movePlayer
    rw [if_neg]
    simp [hdead]
  rw [hmv] at h2
  have h3 := eatPhase_get_dead ((g.botPhase useGoal pickBest).movePhase
    (now - g.last_update_time)) foodRng j q h2 hdead
  have h4 := collisionPhase_get (((g.botPhase useGoal pickBest).movePhase
    (now - g.last_update_time)).eatPhase foodRng) j q h3
  have hcp : collidePlayer (((g.botPhase useGoal pickBest).movePhase
      (now - g.last_update_time)).eatPhase foodRng).players q = q := by
    unfold collidePlayer
    rw [if_neg]
    simp [hdead]
  rw [hcp] at h4
  refine ⟨?_, h3⟩
  rw [update_players_eq g now useGoal pickBest foodRng hnow]
  exact h4

/-- A constant Boolean draw stream for witnesses. -/
def allTrue : Nat → Bool := fun _ => true

/-- A constant food-respawn draw stream for witnesses. -/
def rng20 : Nat → Nat → Nat → Pos := fun _ _ _ => (20, 20)

/-- Witness game for C7: one living human, no open window. -/
def rwGame : Game :=
  { Game.init 0 5 0 with
      players := [Player.mk' 0 (0, 255, 0) 'A' (5, 10) false]
      foods := [{ position := (30, 5) }]
      next_player_id := 1, color_index := 1 }

set_option maxRecDepth 100000 in
/-- Witness for C7 applying restart_window at rwGame and tick time
1000 ms: the flag reads true 5000 ms later and false 5001 ms later. -/
theorem restart_window_witness :
    (rwGame.update 1000 allTrue allTrue rng20).last_human_alive_time
      = some 1000 ∧
    ((rwGame.update 1000 allTrue allTrue rng20).get_state 6000
      none).show_restart_message = true ∧
    ((rwGame.update 1000 allTrue allTrue rng20).get_state 6001
      none).show_restart_message = false := by
  have h := (restart_window rwGame 1000 allTrue allTrue rng20 none
    (by decide)).1 (by rfl) (by decide)
  exact ⟨h.1, (h.2 6000).1 (by decide), (h.2 6001).2 (by decide)⟩

/-- Modelled from the spec sentence for C8: a surviving candidate with
new Manhattan distance newDist and free-space score freeSpace scores
-50 x newDist + freeSpace when freeSpace is at least 1, and
-10 x newDist - 100 x freeSpace otherwise. -/
def specGoalScore (newDist : Int) (freeSpace : Nat) : Int :=
  if freeSpace ≥ 1 then -50 * newDist + freeSpace
  else -10 * newDist - 100 * freeSpace

instance : IsTotal (Dir × Int × Nat) (fun a b => b.2.1 ≤ a.2.1) :=
  ⟨fun _ _ => le_total _ _⟩

instance : IsTrans (Dir × Int × Nat) (fun a b => b.2.1 ≤ a.2.1) :=
  ⟨fun _ _ _ hab hbc => le_trans hbc hab⟩

/-- Pulling an if-guarded filterMap apart into filter and map. -/
theorem filterMap_if_eq {α β : Type _} (pred : α → Prop) [DecidablePred pred]
    (f : α → β) (l : List α) :
    l.filterMap (fun a => if pred a then some (f a) else none)
      = (l.filter (fun a => decide (pred a))).map f := by
  induction l with
  | nil => rfl
  | cons a t ih => by_cases h : pred a <;> simp [h, ih]

/-- The candidate list of the goal-seeking step is exactly the safe
candidates scored by the spec formula. -/
theorem evaluatedDirections_eq (snake : Snake) (target : Pos)
    (others : List (List Pos)) :
    evaluatedDirections snake target others
      = ((possibleDirections (target.1 - (snake.body.headD (0, 0)).1)
            (target.2 - (snake.body.headD (0, 0)).2)).filter
          (fun d => decide (dirSafe snake others d))).map
        (fun d =>
          (d, specGoalScore
                (manhattan target (stepPos (snake.body.headD (0, 0)) (dirVec d)))
                (calculateSpaceAhead snake d others),
           calculateSpaceAhead snake d others)) := by
  have hfn : ∀ d : Dir,
      (if dirSafe snake others d then
        some (d,
          (if calculateSpaceAhead snake d others ≥ 1 then
            -manhattan target (stepPos (snake.body.headD (0, 0)) (dirVec d)) * 50
              + (calculateSpaceAhead snake d others : Int)
           else
            -manhattan target (stepPos (snake.body.headD (0, 0)) (dirVec d)) * 10
              - (calculateSpaceAhead snake d others : Int) * 100),
          calculateSpaceAhead snake d others)
       else none)
      = (if dirSafe snake others d then
          some ((fun d =>
            (d, specGoalScore
                  (manhattan target (stepPos (snake.body.headD (0, 0)) (dirVec d)))
                  (calculateSpaceAhead snake d others),
             calculateSpaceAhead snake d others)) d)
         else none) := by
    intro d
    dsimp only
    unfold specGoalScore
    split_ifs with h h2
    · simp only [Option.some.injEq, Prod.mk.injEq]
      refine ⟨trivial, ?_, trivial⟩
      ring
    · simp only [Option.some.injEq, Prod.mk.injEq]
      refine ⟨trivial, ?_, trivial⟩
      ring
    · rfl
  calc evaluatedDirections snake target others
      = (possibleDirections (target.1 - (snake.body.headD (0, 0)).1)
          (target.2 - (snake.body.headD (0, 0)).2)).filterMap
        (fun d =>
          if dirSafe snake others d then
            some (d,
              (if calculateSpaceAhead snake d others ≥ 1 then
                -manhattan target (stepPos (snake.body.headD (0, 0)) (dirVec d)) * 50
                  + (calculateSpaceAhead snake d others : Int)
               else
                -manhattan target (stepPos (snake.body.headD (0, 0)) (dirVec d)) * 10
                  - (calculateSpaceAhead snake d others : Int) * 100),
              calculateSpaceAhead snake d others)
          else none) := rfl
    _ = (possibleDirections (target.1 - (snake.body.headD (0, 0)).1)
          (target.2 - (snake.body.headD (0, 0)).2)).filterMap
        (fun d =>
          if dirSafe snake others d then
            some ((fun d =>
              (d, specGoalScore
                    (manhattan target (stepPos (snake.body.headD (0, 0)) (dirVec d)))
                    (calculateSpaceAhead snake d others),
               calculateSpaceAhead snake d others)) d)
          else none) := by
        exact congrArg
          (fun fn => List.filterMap fn
            (possibleDirections (target.1 - (snake.body.headD (0, 0)).1)
              (target.2 - (snake.body.headD (0, 0)).2)))
          (funext hfn)
    _ = _ := filterMap_if_eq (dirSafe snake others) _ _

/-- C8: in the goal-seeking step every surviving candidate carries the
spec score; when at least two candidates survive, the first element of
the stable score-descending sort bounds every candidate score from
above and is chosen, except that when its free-space score is below 2
and the second sorted candidate has free space exceeding it by more
than 1, the second is chosen; a sole candidate is chosen outright. -/
theorem goal_seek_scoring (snake : Snake) (f : Pos) (fs : List Pos)
    (others : List (List Pos)) (pickBest : Bool) :
    (evaluatedDirections snake
        (nearestFood (snake.body.headD (0, 0)) f fs) others).map
      (fun c => c.2.1)
      = (evaluatedDirections snake
          (nearestFood (snake.body.headD (0, 0)) f fs) others).map
        (fun c =>
          specGoalScore
            (manhattan (nearestFood (snake.body.headD (0, 0)) f fs)
              (stepPos (snake.body.headD (0, 0)) (dirVec c.1))) c.2.2)
    ∧ (∀ c₀ c₁ rest,
        sortByScoreDesc (evaluatedDirections snake
          (nearestFood (snake.body.headD (0, 0)) f fs) others)
          = c₀ :: c₁ :: rest →
        (∀ c ∈ evaluatedDirections snake
            (nearestFood (snake.body.headD (0, 0)) f fs) others,
          c.2.1 ≤ c₀.2.1)
        ∧ moveTowardsFood snake (f :: fs) others pickBest
            = some (if c₀.2.2 < 2 ∧ c₁.2.2 > c₀.2.2 + 1 then c₁.1 else c₀.1))
    ∧ (∀ c, sortByScoreDesc (evaluatedDirections snake
          (nearestFood (snake.body.headD (0, 0)) f fs) others) = [c] →
        moveTowardsFood snake (f :: fs) others pickBest = some c.1) := by
  refine ⟨?_, ?_, ?_⟩
  · rw [evaluatedDirections_eq, List.map_map, List.map_map]
    apply List.map_congr_left
    intro d _
    rfl
  · intro c₀ c₁ rest hsort
    have hsorted := List.sorted_insertionSort
      (fun (a b : Dir × Int × Nat) => b.2.1 ≤ a.2.1)
      (evaluatedDirections snake
        (nearestFood (snake.body.headD (0, 0)) f fs) others)
    have hperm := List.perm_insertionSort
      (fun (a b : Dir × Int × Nat) => b.2.1 ≤ a.2.1)
      (evaluatedDirections snake
        (nearestFood (snake.body.headD (0, 0)) f fs) others)
    have hsortI : List.insertionSort
        (fun (a b : Dir × Int × Nat) => b.2.1 ≤ a.2.1)
        (evaluatedDirections snake
          (nearestFood (snake.body.headD (0, 0)) f fs) others)
        = c₀ :: c₁ :: rest := hsort
    rw [hsortI] at hsorted hperm
    constructor
    · intro c hc
      have hc2 : c ∈ c₀ :: c₁ :: rest := hperm.mem_iff.mpr hc
      rcases List.mem_cons.mp hc2 with hh | ht2
      · exact le_of_eq (congrArg (fun x => x.2.1) hh)
      · exact (List.pairwise_cons.mp hsorted).1 c ht2
    · unfold moveTowardsFood
      dsimp only
      rw [hsort]
      show (if c₀.2.2 < 2 ∧ c₁.2.2 > c₀.2.2 + 1 then some c₁.1 else some c₀.1)
        = some (if c₀.2.2 < 2 ∧ c₁.2.2 > c₀.2.2 + 1 then c₁.1 else c₀.1)
      split_ifs <;> rfl
  · intro c hsort
    unfold moveTowardsFood
    dsimp only
    rw [hsort]

/-- Witness for C8 at a concrete two-candidate configuration: head at
(5, 10) moving right, food at (8, 13); RIGHT and DOWN survive with
equal scores, so the stable sort keeps RIGHT first and RIGHT is
chosen. -/
theorem goal_seek_scoring_witness :
    moveTowardsFood (Snake.init (5, 10)) [(8, 13)] [] true = some Dir.RIGHT := by
  have h := (goal_seek_scoring (Snake.init (5, 10)) (8, 13) [] [] true).2.1
    (Dir.RIGHT, -247, 3) (Dir.DOWN, -247, 3) [] (by decide)
  exact h.2.trans (by decide)

/-- C2: for every snake and every collection of other snake bodies,
check_collision returns the first matching reason in strict priority
order: a head outside the 40 x 30 grid gives wall (so a head that is
simultaneously out of bounds and on the own body is reported as wall,
never self); otherwise a head equal to an own non-head cell gives
self; otherwise a head on any cell of any other snake, its head
included, gives other_player; otherwise no collision. -/
theorem check_collision_priority (s : Snake) (others : List (List Pos)) :
    (s.check_collision others = some CollisionReason.wall ↔
      ¬ in_bounds (s.body.headD (0, 0)))
    ∧ (s.check_collision others = some CollisionReason.self ↔
      in_bounds (s.body.headD (0, 0)) ∧ s.body.headD (0, 0) ∈ s.body.tail)
    ∧ (s.check_collision others = some CollisionReason.other_player ↔
      in_bounds (s.body.headD (0, 0)) ∧ s.body.headD (0, 0) ∉ s.body.tail ∧
        ∃ b ∈ others, s.body.headD (0, 0) ∈ b)
    ∧ (s.check_collision others = none ↔
      in_bounds (s.body.headD (0, 0)) ∧ s.body.headD (0, 0) ∉ s.body.tail ∧
        ¬ ∃ b ∈ others, s.body.headD (0, 0) ∈ b) := by
  unfold Snake.check_collision
  generalize s.body.headD (0, 0) = hd
  by_cases h1 : in_bounds hd <;>
    by_cases h2 : hd ∈ s.body.tail <;>
      by_cases h3 : ∃ b ∈ others, hd ∈ b <;>
        simp [h1, h2, h3]

/-- C3: moving a nonempty snake without pending growth prepends
head + direction and drops the tail cell, leaving the length
unchanged; moving with pending growth prepends head + direction,
keeps the tail, increases the length by exactly one and clears the
flag; setting the growth flag again before the move changes nothing. -/
theorem move_snake_growth (s : Snake) (h : s.body ≠ []) :
    (s.new_block = false →
      s.move_snake.body
        = stepPos (s.body.headD (0, 0)) s.direction :: s.body.dropLast ∧
      s.move_snake.get_size = s.get_size ∧
      s.move_snake.new_block = false)
    ∧ (s.new_block = true →
      s.move_snake.body = stepPos (s.body.headD (0, 0)) s.direction :: s.body ∧
      s.move_snake.get_size = s.get_size + 1 ∧
      s.move_snake.new_block = false)
    ∧ s.add_block.add_block = s.add_block := by
  have hlen : 0 < s.body.length := List.length_pos.mpr h
  unfold Snake.move_snake Snake.add_block Snake.get_size
  cases hb : s.new_block
  · simp [hb, List.length_dropLast]
    omega
  · simp [hb]

/-- C6: a direction-change request for an unknown or dead player is a
no-op; for a living player, a request whose unit vector is the exact
reverse of the current direction leaves the state unchanged, and any
other request sets the corresponding unit vector. -/
theorem change_direction_rules (g : Game) (player_id : Nat) (d : Dir)
    (hids : (g.players.map (fun p => p.player_id)).Nodup) :
    ((∀ p ∈ g.players, p.player_id ≠ player_id) →
      g.change_direction player_id d = g)
    ∧ (∀ p ∈ g.players, p.player_id = player_id →
        (p.game_over = true → g.change_direction player_id d = g)
        ∧ (p.game_over = false →
            (p.snake.direction = (-(dirVec d).1, -(dirVec d).2) →
              g.change_direction player_id d = g)
            ∧ (p.snake.direction ≠ (-(dirVec d).1, -(dirVec d).2) →
              g.change_direction player_id d =
                g.updatePlayer player_id (fun q =>
                  { q with snake := { q.snake with direction := dirVec d } })))) := by
  constructor
  · intro hnone
    have hf := find_player_none g.players player_id hnone
    cases d <;> simp [Game.change_direction, hf]
  · intro p hp hpid
    have hf : g.players.find? (fun q => q.player_id == player_id) = some p := by
      rw [← hpid]
      exact find_player_eq g.players p hids hp
    constructor
    · intro hover
      cases d <;> simp [Game.change_direction, hf, hover]
    · intro halive
      constructor
      · intro hrev
        cases d <;>
          simp_all [Game.change_direction, hf, halive, dirVec]
      · intro hrev
        cases d <;>
          simp_all [Game.change_direction, hf, halive, dirVec]

/-- Witness for C6: a two-player game; the living player 0 moves right,
so a LEFT request is ignored and an UP request turns the snake; a
request for the dead player 1 and for the unknown id 7 is ignored. -/
def cdGame : Game :=
  { Game.init 0 5 0 with
      players :=
        [Player.mk' 0 (0, 255, 0) 'A' (5, 10) false,
         { Player.mk' 1 (0, 0, 255) 'B' (5, 15) false with
             game_over := true
             game_over_reason := some CollisionReason.wall }]
      next_player_id := 2, color_index := 2 }

/-- Witness for C6 applying change_direction_rules at cdGame. -/
theorem change_direction_rules_witness :
    cdGame.change_direction 0 Dir.LEFT = cdGame ∧
    cdGame.change_direction 0 Dir.UP =
      cdGame.updatePlayer 0 (fun q =>
        { q with snake := { q.snake with direction := dirVec Dir.UP } }) ∧
    cdGame.change_direction 1 Dir.UP = cdGame ∧
    cdGame.change_direction 7 Dir.UP = cdGame := by
  refine ⟨?_, ?_, ?_, ?_⟩
  · exact (((change_direction_rules cdGame 0 Dir.LEFT (by decide)).2
      (cdGame.players.headD (Player.mk' 0 (0, 0, 0) 'A' (0, 0) false))
      (by decide) (by decide)).2 (by decide)).1 (by decide)
  · exact (((change_direction_rules cdGame 0 Dir.UP (by decide)).2
      (cdGame.players.headD (Player.mk' 0 (0, 0, 0) 'A' (0, 0) false))
      (by decide) (by decide)).2 (by decide)).2 (by decide)
  · exact ((change_direction_rules cdGame 1 Dir.UP (by decide)).2
      (cdGame.players.getD 1 (Player.mk' 0 (0, 0, 0) 'A' (0, 0) false))
      (by decide) (by decide)).1 (by decide)
  · exact (change_direction_rules cdGame 7 Dir.UP (by decide)).1 (by decide)

/-- C5: a RESTART_ALL intent resets all players exactly when the
requester is a living non-bot player and the only living non-bot
player; in every other case (dead, bot, unknown, or another human
alive) the World is unchanged. -/
theorem restart_all_gate (g : Game) (player_id : Nat)
    (hids : (g.players.map (fun p => p.player_id)).Nodup) :
    (g.is_last_human_player player_id = true ↔
      ∃ p ∈ g.players, p.player_id = player_id ∧ p.is_bot = false ∧
        p.game_over = false ∧ g.humanPlayersAlive = [p])
    ∧ (g.is_last_human_player player_id = false →
        g.handle_restart_all player_id = g)
    ∧ (g.is_last_human_player player_id = true →
        g.handle_restart_all player_id = g.reset_all_players) := by
  refine ⟨⟨?_, ?_⟩, ?_, ?_⟩
  · intro h
    unfold Game.is_last_human_player at h
    cases hf : g.players.find? (fun q => q.player_id == player_id) with
    | none => rw [hf] at h; cases h
    | some p =>
      rw [hf] at h
      dsimp only at h
      have hmem : p ∈ g.players := List.mem_of_find?_eq_some hf
      have hpid0 := List.find?_some hf
      have hpid : p.player_id = player_id := by simpa using hpid0
      by_cases hh : (!p.is_bot && !p.game_over) = true
      · rw [if_pos hh] at h
        rw [Bool.and_eq_true, Bool.not_eq_true', Bool.not_eq_true'] at hh
        have halivemem : p ∈ g.humanPlayersAlive := by
          unfold Game.humanPlayersAlive
          rw [List.mem_filter]
          exact ⟨hmem, by rw [hh.1, hh.2]; rfl⟩
        rw [Bool.and_eq_true] at h
        have hlen : g.humanPlayersAlive.length = 1 := by
          simpa using h.1
        rcases List.length_eq_one.mp hlen with ⟨q, hq⟩
        have hpq : p = q := by
          rw [hq] at halivemem
          simpa using halivemem
        exact ⟨p, hmem, hpid, hh.1, hh.2, by rw [hq, hpq]⟩
      · rw [if_neg hh] at h
        cases h
  · rintro ⟨p, hmem, hpid, hbot, hover, halive⟩
    have hf : g.players.find? (fun q => q.player_id == player_id) = some p := by
      rw [← hpid]
      exact find_player_eq g.players p hids hmem
    unfold Game.is_last_human_player
    rw [hf, halive]
    simp [hbot, hover, hpid]
  · intro h
    unfold Game.handle_restart_all
    rw [h]
    simp
  · intro h
    unfold Game.handle_restart_all
    rw [h]
    simp

/-- Witness game for C5: player 0 is the only living human, player 1
is a dead human, player 2 is a living bot. -/
def rgGame : Game :=
  { Game.init 1 5 0 with
      players :=
        [Player.mk' 0 (0, 255, 0) 'A' (5, 5) false,
         { Player.mk' 1 (0, 0, 255) 'B' (5, 10) false with
             game_over := true
             game_over_reason := some CollisionReason.other_player },
         { Player.mk' 2 (255, 165, 0) '0' (5, 15) true with
             bot_level := some 5 }]
      next_player_id := 3, color_index := 3
      bot_ais := [(2, 5)] }

/-- Witness for C5 applying restart_all_gate at rgGame: the sole
living human may restart everyone; the dead human, the bot and an
unknown id leave the World unchanged. -/
theorem restart_all_gate_witness :
    rgGame.handle_restart_all 0 = rgGame.reset_all_players ∧
    rgGame.handle_restart_all 1 = rgGame ∧
    rgGame.handle_restart_all 2 = rgGame ∧
    rgGame.handle_restart_all 9 = rgGame := by
  refine ⟨?_, ?_, ?_, ?_⟩
  · exact (restart_all_gate rgGame 0 (by decide)).2.2 (by decide)
  · exact (restart_all_gate rgGame 1 (by decide)).2.1 (by decide)
  · exact (restart_all_gate rgGame 2 (by decide)).2.1 (by decide)
  · exact (restart_all_gate rgGame 9 (by decide)).2.1 (by decide)

/-- Witness for C3 at the initial snake of Snake.__init__. -/
theorem move_snake_growth_witness :
    (Snake.init (5, 10)).move_snake.get_size = 3 ∧
    (Snake.init (5, 10)).add_block.move_snake.get_size = 4 := by
  have h1 := move_snake_growth (Snake.init (5, 10)) (by decide)
  have h2 := move_snake_growth ((Snake.init (5, 10)).add_block) (by decide)
  constructor
  · exact ((h1.1 (by decide)).2.1).trans (by decide)
  · exact ((h2.2.1 (by decide)).2.1).trans (by decide)

/-- The nudge loop never changes the row. -/
theorem nudge_snd (occupied : List Pos) :
    ∀ (p : Pos) (fuel : Nat), (nudge occupied p fuel).2 = p.2 := by
  intro p fuel
  induction fuel generalizing p with
  | zero => rfl
  | succ n ih =>
    unfold nudge
    split_ifs with h
    · exact ih (p.1 + 1, p.2)
    · rfl

/-- C9 (amended): a player added with id at least 5 spawns with head
(x, 5 + 5 id) outside the 40 x 30 grid, because the rightward nudge
never changes the row.  On the first firing tick in which the snake
moves, the player is marked game_over with reason wall whenever the
post-move head row is still at least 30 - which holds for every id of
at least 6 regardless of direction, and for id 5 unless the direction
at the move is UP, in which case the head re-enters the grid (see the
counterexample). -/
theorem spawn_out_of_grid_amended :
    (∀ (g : Game) (letter : Char) (is_bot : Bool) (rng : Nat → Nat → Pos),
      ∃ p x,
        (g.add_player letter is_bot rng).players.get? g.players.length
          = some p ∧
        p.player_id = g.next_player_id ∧
        p.game_over = false ∧
        p.snake = Snake.init (x, 5 + (g.next_player_id : Int) * 5) ∧
        (5 ≤ g.next_player_id → ¬ in_bounds (p.snake.body.headD (0, 0))))
    ∧ (∀ (g : Game) (now : Time) (useGoal pickBest : Nat → Bool)
        (foodRng : Nat → Nat → Nat → Pos) (i : Nat) (p : Player),
        g.players.get? i = some p →
        (∀ a ∈ g.bot_ais, a.1 ≠ p.player_id) →
        p.game_over = false →
        p.snake.direction ∈ [((1 : Int), (0 : Int)), (-1, 0), (0, 1), (0, -1)] →
        (p.snake.body.headD (0, 0)).2 ≥ 30 →
        ((p.snake.body.headD (0, 0)).2 ≥ 31
          ∨ p.snake.direction ≠ ((0 : Int), (-1 : Int))) →
        now - g.last_update_time ≥ UPDATE_INTERVAL →
        ∃ p', (g.update now useGoal pickBest foodRng).players.get? i = some p' ∧
          p'.game_over = true ∧
          p'.game_over_reason = some CollisionReason.wall) := by
  constructor
  · intro g letter is_bot rng
    unfold Game.add_player
    dsimp only
    rw [(update_food_count_fields _ rng).2.1]
    dsimp only
    rw [List.get?_concat_length]
    refine ⟨_, (startPos ((g.players.map (fun p => p.snake.body)).flatten)
      g.next_player_id).1, rfl, rfl, rfl, ?_, ?_⟩
    · show Snake.init (startPos _ g.next_player_id) = _
      have hsnd := nudge_snd ((g.players.map (fun p => p.snake.body)).flatten)
        ((5 : Int), 5 + (g.next_player_id : Int) * 5)
        (((g.players.map (fun p => p.snake.body)).flatten).length + 1)
      unfold startPos
      congr 1
      rw [Prod.ext_iff]
      exact ⟨rfl, hsnd⟩
    · intro hid hbound
      have hb2 : in_bounds (startPos
          ((g.players.map (fun p => p.snake.body)).flatten)
          g.next_player_id) := hbound
      unfold startPos at hb2
      rcases hb2 with ⟨_, _, _, h4⟩
      rw [nudge_snd] at h4
      dsimp only at h4
      rw [show CELL_NUMBER_Y = (30 : Int) from rfl] at h4
      have h5 : (5 : Int) ≤ (g.next_player_id : Int) := by exact_mod_cast hid
      omega
  · intro g now useGoal pickBest foodRng i p hp hb halive hdir hrow hexc hnow
    obtain ⟨p'', hup, hid2, hover2, hbody2⟩ :=
      update_get_living g now useGoal pickBest foodRng i p hp hb halive hnow
    have hhead : p''.snake.body.headD (0, 0)
        = stepPos (p.snake.body.headD (0, 0)) p.snake.direction := by
      rw [hbody2, move_snake_headD]
    have hout : ¬ in_bounds (p''.snake.body.headD (0, 0)) := by
      rw [hhead]
      intro hin
      rcases hin with ⟨_, _, _, h4⟩
      rw [show CELL_NUMBER_Y = (30 : Int) from rfl] at h4
      unfold stepPos at h4
      dsimp only at h4
      simp only [List.mem_cons, List.not_mem_nil, or_false] at hdir
      rcases hexc with hrow31 | hnotup
      · rcases hdir with h | h | h | h <;> rw [h] at h4 <;>
          dsimp only at h4 <;> omega
      · rcases hdir with h | h | h | h <;> rw [h] at h4 <;>
          dsimp only at h4 <;>
          first
            | omega
            | exact hnotup h
    have hcheck : p''.snake.check_collision
        (((((g.botPhase useGoal pickBest).movePhase
          (now - g.last_update_time)).eatPhase foodRng).players.filter
            (fun q => q.player_id ≠ p''.player_id)).map
          (fun q => q.snake.body)) = some CollisionReason.wall := by
      unfold Snake.check_collision
      rw [if_pos hout]
    refine ⟨_, hup, ?_, ?_⟩
    · unfold collidePlayer
      rw [if_pos (by simp [hover2])]
      dsimp only
      rw [hcheck]
    · unfold collidePlayer
      rw [if_pos (by simp [hover2])]
      dsimp only
      rw [hcheck]

/-- Food draw streams for the C9 trace: distinct free cells per add. -/
def c9Rng (k : Nat) : Nat → Nat → Pos := fun _ _ => (20 + (k : Int), 20)

/-- Six players added to a fresh World; player 5 spawns at
(5, 30), outside the grid. -/
def c9Game6 : Game :=
  ((((((Game.init 0 5 0).add_player 'A' false (c9Rng 0)).add_player 'B'
    false (c9Rng 1)).add_player 'C' false (c9Rng 2)).add_player 'D' false
    (c9Rng 3)).add_player 'E' false (c9Rng 4)).add_player 'F' false (c9Rng 5)

/-- Players 0-4 removed, then player 5 turns UP before its first
move. -/
def c9Before : Game :=
  (((((c9Game6.remove_player 0 (c9Rng 9)).remove_player 1
    (c9Rng 9)).remove_player 2 (c9Rng 9)).remove_player 3
    (c9Rng 9)).remove_player 4 (c9Rng 9)).change_direction 5 Dir.UP

/-- The first tick in which the snake of player 5 moves. -/
def c9After : Game := c9Before.update 1000 allTrue allTrue rng20

set_option maxRecDepth 200000 in
/-- Counterexample to C9 as stated: player 5 (id 5, added sixth) has
head (5, 30) outside the grid, the remove operations leave it the only
player, a direction change to UP is accepted, the tick at 1000 ms
fires and moves the snake to head (5, 29) - and the player is NOT
marked game_over with reason wall: it stays alive. -/
theorem spawn_out_of_grid_cex :
    c9Before.players.map
      (fun p => (p.player_id, p.snake.body.headD (0, 0), p.snake.direction,
        p.game_over))
      = [(5, (5, 30), (0, -1), false)] ∧
    ¬ in_bounds (5, 30) ∧
    (1000 : Time) - c9Before.last_update_time ≥ UPDATE_INTERVAL ∧
    c9After.players.map
      (fun p => (p.player_id, p.snake.body.headD (0, 0), p.game_over,
        p.game_over_reason))
      = [(5, (5, 29), false, none)] := by
  refine ⟨by decide, by decide, by decide, by decide⟩

/-- The World of the C9 witness: like c9Before but without the turn,
so player 5 still moves right. -/
def c9BeforeW : Game :=
  ((((c9Game6.remove_player 0 (c9Rng 9)).remove_player 1
    (c9Rng 9)).remove_player 2 (c9Rng 9)).remove_player 3
    (c9Rng 9)).remove_player 4 (c9Rng 9)

set_option maxRecDepth 200000 in
/-- Witness for the amended C9: player 5 keeps moving right; the tick
at 1000 ms marks it game_over with reason wall.  Also instantiates the
spawn-geometry part at the sixth add. -/
theorem spawn_out_of_grid_amended_witness :
    (∃ p', (c9BeforeW.update 1000 allTrue allTrue rng20).players.get? 0
        = some p' ∧
      p'.game_over = true ∧
      p'.game_over_reason = some CollisionReason.wall) ∧
    (∃ p x,
      c9Game6.players.get? 5 = some p ∧
      p.player_id = 5 ∧
      p.game_over = false ∧
      p.snake = Snake.init (x, 30) ∧
      (5 ≤ (5 : Nat) → ¬ in_bounds (p.snake.body.headD (0, 0)))) := by
  constructor
  · exact spawn_out_of_grid_amended.2 c9BeforeW 1000 allTrue allTrue rng20 0
      (c9BeforeW.players.headD (Player.mk' 0 (0, 0, 0) 'A' (0, 0) false))
      (by decide) (by decide) (by decide) (by decide) (by decide) (by decide)
      (by decide)
  · obtain ⟨p, x, h⟩ := spawn_out_of_grid_amended.1
      ((((((Game.init 0 5 0).add_player 'A' false (c9Rng 0)).add_player 'B'
        false (c9Rng 1)).add_player 'C' false (c9Rng 2)).add_player 'D' false
        (c9Rng 3)).add_player 'E' false (c9Rng 4)) 'F' false (c9Rng 5)
    exact ⟨p, x, h⟩

/-- C10: a player whose game_over flag is set is not moved by a firing
tick - its entry survives the tick completely unchanged - yet its
snake stays in the collision set: a living player (not bot-driven)
whose moved head lands in bounds, off its own new body, and on any
cell of the dead player's stationary body is marked game_over with
reason other_player.  Bot direction decisions, in contrast, only ever
see the bodies of living players. -/
theorem dead_snake_collision (g : Game) (now : Time)
    (useGoal pickBest : Nat → Bool) (foodRng : Nat → Nat → Nat → Pos)
    (i j : Nat) (p q : Player)
    (hids : (g.players.map (fun r => r.player_id)).Nodup)
    (hp : g.players.get? i = some p) (hq : g.players.get? j = some q)
    (halive : p.game_over = false) (hdead : q.game_over = true)
    (hb : ∀ a ∈ g.bot_ais, a.1 ≠ p.player_id)
    (hne : p.player_id ≠ q.player_id)
    (hnow : now - g.last_update_time ≥ UPDATE_INTERVAL)
    (hin : in_bounds (p.snake.move_snake.body.headD (0, 0)))
    (hself : p.snake.move_snake.body.headD (0, 0)
      ∉ p.snake.move_snake.body.tail)
    (hhit : p.snake.move_snake.body.headD (0, 0) ∈ q.snake.body) :
    (∃ p', (g.update now useGoal pickBest foodRng).players.get? i = some p' ∧
      p'.game_over = true ∧
      p'.game_over_reason = some CollisionReason.other_player) ∧
    (g.update now useGoal pickBest foodRng).players.get? j = some q ∧
    (∀ pid : Nat, ∀ b ∈ g.botConsidered pid,
      ∃ r ∈ g.players, r.game_over = false ∧ r.player_id ≠ pid ∧
        r.snake.body = b) := by
  have hu := nodup_uniqEntry g.players q hids (List.get?_mem hq)
  obtain ⟨hdead1, hdead2⟩ := update_get_dead g now useGoal pickBest foodRng
    j q hq hdead hu hnow
  obtain ⟨p'', hup, hid2, hover2, hbody2⟩ :=
    update_get_living g now useGoal pickBest foodRng i p hp hb halive hnow
  have hqmem : q ∈ (((g.botPhase useGoal pickBest).movePhase
      (now - g.last_update_time)).eatPhase foodRng).players :=
    List.get?_mem hdead2
  have hcheck : p''.snake.check_collision
      (((((g.botPhase useGoal pickBest).movePhase
        (now - g.last_update_time)).eatPhase foodRng).players.filter
          (fun r => r.player_id ≠ p''.player_id)).map
        (fun r => r.snake.body)) = some CollisionReason.other_player := by
    unfold Snake.check_collision
    rw [if_neg (by rw [hbody2]; simpa using hin)]
    rw [if_neg (by rw [hbody2]; simpa using hself)]
    rw [if_pos]
    refine ⟨q.snake.body, List.mem_map_of_mem _ (List.mem_filter.mpr
      ⟨hqmem, ?_⟩), ?_⟩
    · simp [hid2]
      intro he
      exact hne he.symm
    · rw [hbody2]
      exact hhit
  refine ⟨⟨_, hup, ?_, ?_⟩, hdead1, ?_⟩
  · unfold collidePlayer
    rw [if_pos (by simp [hover2])]
    dsimp only
    rw [hcheck]
  · unfold collidePlayer
    rw [if_pos (by simp [hover2])]
    dsimp only
    rw [hcheck]
  · intro pid b hbmem
    unfold Game.botConsidered at hbmem
    rcases List.mem_map.mp hbmem with ⟨r, hr, hrb⟩
    rcases List.mem_filter.mp hr with ⟨hr1, hr2⟩
    rcases List.mem_filter.mp hr1 with ⟨hr3, hr4⟩
    refine ⟨r, hr3, ?_, ?_, hrb⟩
    · simpa using hr4
    · simpa using hr2

/-- Witness game for C10: living player 0 at head (5, 10) moving
right; dead player 1 whose stationary body covers (6, 10). -/
def dcGame : Game :=
  { Game.init 0 5 0 with
      players :=
        [Player.mk' 0 (0, 255, 0) 'A' (5, 10) false,
         { Player.mk' 1 (0, 0, 255) 'B' (8, 10) false with
             game_over := true
             game_over_reason := some CollisionReason.wall }]
      foods := [{ position := (30, 5) }, { position := (31, 5) }]
      next_player_id := 2, color_index := 2 }

/-- The default player used to name list entries in witnesses. -/
def dfltPlayer : Player := Player.mk' 0 (0, 0, 0) 'A' (0, 0) false

set_option maxRecDepth 200000 in
/-- Witness for C10 applying dead_snake_collision at dcGame: after the
tick at 1000 ms, player 0 is game_over with reason other_player and
the dead player 1 is unchanged. -/
theorem dead_snake_collision_witness :
    (∃ p', (dcGame.update 1000 allTrue allTrue rng20).players.get? 0
        = some p' ∧
      p'.game_over = true ∧
      p'.game_over_reason = some CollisionReason.other_player) ∧
    (dcGame.update 1000 allTrue allTrue rng20).players.get? 1
      = some (dcGame.players.getD 1 dfltPlayer) := by
  have h := dead_snake_collision dcGame 1000 allTrue allTrue rng20 0 1
    (dcGame.players.headD dfltPlayer) (dcGame.players.getD 1 dfltPlayer)
    (by decide) (by decide) (by decide) (by decide) (by decide) (by decide)
    (by decide) (by decide) (by decide) (by decide) (by decide)
  exact ⟨h.1, h.2.1⟩

/-- A respawn whose draw stream offers a free cell within the
1000-attempt budget lands outside the occupied cells. -/
theorem randomize_avoid (f : Food) (occupied : List Pos) (rng : Nat → Pos)
    (h : ∃ n ∈ List.range 1000, rng n ∉ occupied) :
    (f.randomize occupied rng).position ∉ occupied := by
  unfold Food.randomize
  cases hf : (List.range 1000).find? (fun n => decide (rng n ∉ occupied)) with
  | none =>
    exfalso
    obtain ⟨n, hn, hnot⟩ := h
    have := List.find?_eq_none.mp hf n hn
    simp at this
    exact hnot this
  | some n =>
    have := List.find?_some hf
    simpa using this

/-- The concrete single-player World of the C4 scenario: snake of
length 3 with head (5, 10) moving right, food one step ahead at
(6, 10). -/
def c4Game : Game :=
  { Game.init 0 5 0 with
      players := [Player.mk' 0 (0, 255, 0) 'A' (5, 10) false]
      foods := [{ position := (6, 10) }]
      next_player_id := 1, color_index := 1 }

/-- The C4 scenario World after one tick. -/
def c4After : Game := c4Game.update 1000 allTrue allTrue rng20

set_option maxRecDepth 200000 in
/-- Counterexample to C4 as stated: in the scenario World (single
player, snake length 3, food one step ahead, 1000 ms elapsed), after
one tick the score is 1 and the food is relocated off the snake, but
the snake length is 3 - not 4.  Eating only sets the pending-growth
flag; the length becomes 4 on the next move. -/
theorem eat_tick_length_cex :
    c4Game.players.map
      (fun p => (p.snake.get_size, p.score, p.game_over, p.snake.new_block))
      = [(3, 0, false, false)] ∧
    c4Game.foods.map (fun f => f.position) = [(6, 10)] ∧
    c4Game.players.map
      (fun p => stepPos (p.snake.body.headD (0, 0)) p.snake.direction)
      = [(6, 10)] ∧
    (1000 : Time) - c4Game.last_update_time ≥ UPDATE_INTERVAL ∧
    c4After.players.map
      (fun p => (p.snake.get_size, p.score, p.snake.new_block, p.snake.body))
      = [(3, 1, true, [(6, 10), (5, 10), (4, 10)])] ∧
    c4After.foods.map (fun f => f.position) = [(20, 20)] := by
  exact ⟨by decide, by decide, by decide, by decide, by decide, by decide⟩


/-- A single living length-3 snake, parametric in everything. -/
def c4Player (pid : Nat) (col : Nat × Nat × Nat) (letter : Char)
    (a b c v : Pos) (gt ft : Time) (gor : Option CollisionReason)
    (isb : Bool) (bl : Option Nat) : Player :=
  { player_id := pid, color := col, letter := letter
    snake := { body := [a, b, c], direction := v, new_block := false }
    score := 0, game_over := false, game_over_reason := gor
    game_timer := gt, food_timer := ft, is_bot := isb, bot_level := bl }

/-- A one-player World whose single food sits directly in front of the
snake head. -/
def c4World (pid : Nat) (col : Nat × Nat × Nat) (letter : Char)
    (a b c v : Pos) (gt ft : Time) (gor : Option CollisionReason)
    (isb : Bool) (bl : Option Nat) (t0 : Time)
    (npi ci nb blv bi : Nat) (binit : Bool) (lh : Option Time) : Game :=
  { players := [c4Player pid col letter a b c v gt ft gor isb bl]
    foods := [{ position := stepPos a v }]
    last_update_time := t0, next_player_id := npi, color_index := ci
    num_bots := nb, bot_level := blv, bot_ais := [], bot_index := bi
    bots_initialized := binit, last_human_alive_time := lh }


/-- collidePlayer never changes the score or the snake. -/
theorem collidePlayer_fields (all : List Player) (p : Player) :
    (collidePlayer all p).score = p.score ∧
    (collidePlayer all p).snake = p.snake := by
  unfold collidePlayer
  by_cases h : ¬ p.game_over
  · rw [if_pos h]
    dsimp only
    cases hc : p.snake.check_collision ((all.filter
        (fun q => q.player_id ≠ p.player_id)).map (fun q => q.snake.body)) with
    | none => exact ⟨rfl, rfl⟩
    | some r => exact ⟨rfl, rfl⟩
  · rw [if_neg h]
    exact ⟨rfl, rfl⟩

/-- C4 (amended): a snake whose next cell holds the food eats it on the
firing tick: the score becomes 1, growth is flagged and the food is
respawned off the new body, but the body length is still 3 after the
tick; the pending block makes the next move produce length 4. -/
theorem eat_tick_amended
    (pid : Nat) (col : Nat × Nat × Nat) (letter : Char)
    (a b c v : Pos) (gt ft : Time) (gor : Option CollisionReason)
    (isb : Bool) (bl : Option Nat) (t0 now : Time)
    (npi ci nb blv bi : Nat) (binit : Bool) (lh : Option Time)
    (useGoal pickBest : Nat → Bool) (foodRng : Nat → Nat → Nat → Pos)
    (hnow : now - t0 ≥ UPDATE_INTERVAL)
    (hrng : ∃ n ∈ List.range 1000,
      foodRng 0 0 n ∉ [stepPos a v, a, b, stepPos a v]) :
    ∃ p' f',
      ((c4World pid col letter a b c v gt ft gor isb bl t0 npi ci nb blv bi
        binit lh).update now useGoal pickBest foodRng).players = [p'] ∧
      ((c4World pid col letter a b c v gt ft gor isb bl t0 npi ci nb blv bi
        binit lh).update now useGoal pickBest foodRng).foods = [f'] ∧
      p'.score = 1 ∧
      p'.snake.new_block = true ∧
      p'.snake.get_size = 3 ∧
      p'.snake.body = [stepPos a v, a, b] ∧
      p'.snake.move_snake.get_size = 4 ∧
      f'.position ∉ [stepPos a v, a, b] := by
  obtain ⟨n, hn, hrngn⟩ := hrng
  have heat : ((c4World pid col letter a b c v gt ft gor isb bl t0 npi ci nb
      blv bi binit lh).movePhase (now - t0)).eatPhase foodRng
      = { (c4World pid col letter a b c v gt ft gor isb bl t0 npi ci nb blv bi
            binit lh).movePhase (now - t0) with
          players := [{ c4Player pid col letter a b c v gt ft gor isb bl with
            snake := { body := [stepPos a v, a, b], direction := v,
                       new_block := true }
            score := 1
            game_timer := gt + (now - t0)
            food_timer := 0 }]
          foods := [Food.randomize { position := stepPos a v }
            ([stepPos a v, a, b] ++ [stepPos a v]) (foodRng 0 0)] } := by
    simp [Game.eatPhase, eatStep, processFoods, foodStep, c4World, c4Player,
      Game.movePhase, movePlayer, Snake.move_snake, Snake.add_block,
      List.range_succ]
  have hbot : (c4World pid col letter a b c v gt ft gor isb bl t0 npi ci nb
      blv bi binit lh).botPhase useGoal pickBest
      = c4World pid col letter a b c v gt ft gor isb bl t0 npi ci nb blv bi
        binit lh := rfl
  have hupd : (c4World pid col letter a b c v gt ft gor isb bl t0 npi ci nb
      blv bi binit lh).update now useGoal pickBest foodRng
      = { ((((c4World pid col letter a b c v gt ft gor isb bl t0 npi ci nb
            blv bi binit lh).botPhase useGoal pickBest).movePhase
            (now - t0)).eatPhase foodRng).collisionPhase.humanAlivePhase now
          with last_update_time := now } := by
    unfold Game.update
    rw [if_pos (show now - (c4World pid col letter a b c v gt ft gor isb bl
      t0 npi ci nb blv bi binit lh).last_update_time ≥ UPDATE_INTERVAL
      from hnow)]
    rfl
  refine ⟨collidePlayer
      [{ c4Player pid col letter a b c v gt ft gor isb bl with
          snake := { body := [stepPos a v, a, b], direction := v,
                     new_block := true }
          score := 1, game_timer := gt + (now - t0), food_timer := 0 }]
      { c4Player pid col letter a b c v gt ft gor isb bl with
          snake := { body := [stepPos a v, a, b], direction := v,
                     new_block := true }
          score := 1, game_timer := gt + (now - t0), food_timer := 0 },
    Food.randomize { position := stepPos a v }
      ([stepPos a v, a, b] ++ [stepPos a v]) (foodRng 0 0),
    ?_, ?_, ?_, ?_, ?_, ?_, ?_, ?_⟩
  · rw [hupd]
    show ((_ : Game).humanAlivePhase now).players = _
    rw [(humanAlivePhase_fields _ now).1, hbot, heat]
    unfold Game.collisionPhase
    rfl
  · rw [hupd]
    show ((_ : Game).humanAlivePhase now).foods = _
    rw [(humanAlivePhase_fields _ now).2.1, hbot, heat]
    rfl
  · rw [(collidePlayer_fields _ _).1]
  · rw [(collidePlayer_fields _ _).2]
  · rw [(collidePlayer_fields _ _).2]
    rfl
  · rw [(collidePlayer_fields _ _).2]
  · rw [(collidePlayer_fields _ _).2]
    rfl
  · intro hmem
    exact randomize_avoid _ _ _ ⟨n, hn, hrngn⟩
      (List.mem_append_left _ hmem)

set_option maxRecDepth 200000 in
/-- Concrete instantiation of the amended C4 theorem. -/
theorem eat_tick_amended_witness :
    ∃ p' f',
      ((c4World 0 (255, 0, 0) 'A' (5, 10) (4, 10) (3, 10) (1, 0) 0 0 none
        false none 0 1 1 0 1 0 false none).update 150 allTrue allTrue
        rng20).players = [p'] ∧
      ((c4World 0 (255, 0, 0) 'A' (5, 10) (4, 10) (3, 10) (1, 0) 0 0 none
        false none 0 1 1 0 1 0 false none).update 150 allTrue allTrue
        rng20).foods = [f'] ∧
      p'.score = 1 ∧
      p'.snake.new_block = true ∧
      p'.snake.get_size = 3 ∧
      p'.snake.body = [stepPos (5, 10) (1, 0), (5, 10), (4, 10)] ∧
      p'.snake.move_snake.get_size = 4 ∧
      f'.position ∉ [stepPos (5, 10) (1, 0), (5, 10), (4, 10)] :=
  eat_tick_amended 0 (255, 0, 0) 'A' (5, 10) (4, 10) (3, 10) (1, 0) 0 0 none
    false none 0 150 1 1 0 1 0 false none allTrue allTrue rng20
    (by decide) ⟨0, by decide, by decide⟩

end SnakeGame
